import Mathlib

/-!
# TLS 1.3 CertificateVerify, SRP helpers and OpenPGP private keys

A shallow embedding of `_gnutls13_recv_certificate_verify` and
`_gnutls13_send_certificate_verify` (lib/tls13/certificate_verify.c), of the
SRP arithmetic and hashing functions of lib/gnutls_srp.c, and of the subkey,
fingerprint and preferred key id functions of lib/openpgp/privkey.c.

* Buffers and datums are lists of bytes; a byte is a `Fin 256`.
* C `int` return codes are `Int`; the guards `ret < 0` are kept as they are.
* The session is an explicit record of the fields the two functions read or
  write.  Functions that live outside this file of the library (handshake
  transport, signature registry, signing and verification, certificate
  selection) are fields of an environment record `Env`; every call to one of
  them is appended to a call log, so that "is not invoked" is a statement
  about the log.
* Constants that come from headers (error codes, handshake flags) are fields
  of `Consts`.
* Heap allocation is not modelled: list append always succeeds, so the
  `GNUTLS_E_MEMORY_ERROR` exits of the send path have no counterpart.
* In the SRP part an MPI is a natural number and the digest function is a
  parameter.
* In the OpenPGP part a keyblock is the list of its packets and the size of a
  pointer is a parameter.
-/

namespace GnuTLS

/-! ## Data model -/

abbrev Byte := Fin 256

/-- A gnutls_datum_t: `data` and `size` together, as a list of bytes. -/
abbrev gnutls_datum_t := List Byte

/-- The low eight bits of a number, as a byte (a C cast to uint8_t). -/
def byteOfNat (n : Nat) : Byte := ⟨n % 256, Nat.mod_lt n (by decide)⟩

/-- Header constants used by certificate_verify.c. Their numeric values are
not part of this file of the library and are left as parameters. -/
structure Consts where
  HSK_CRT_VRFY_EXPECTED : Nat
  HSK_CRT_SENT : Nat
  GNUTLS_SIGN_UNKNOWN : Nat
  GNUTLS_E_INSUFFICIENT_CREDENTIALS : Int
  GNUTLS_E_INTERNAL_ERROR : Int
  GNUTLS_E_UNEXPECTED_PACKET_LENGTH : Int
  GNUTLS_E_UNSUPPORTED_SIGNATURE_ALGORITHM : Int
  GNUTLS_E_RECEIVED_ILLEGAL_PARAMETER : Int
  GNUTLS_E_INCOMPATIBLE_SIG_WITH_KEY : Int

/-- Every error code of the library is a negative integer. -/
def Consts.Negative (K : Consts) : Prop :=
  K.GNUTLS_E_INSUFFICIENT_CREDENTIALS < 0 ∧
  K.GNUTLS_E_INTERNAL_ERROR < 0 ∧
  K.GNUTLS_E_UNEXPECTED_PACKET_LENGTH < 0 ∧
  K.GNUTLS_E_UNSUPPORTED_SIGNATURE_ALGORITHM < 0 ∧
  K.GNUTLS_E_RECEIVED_ILLEGAL_PARAMETER < 0 ∧
  K.GNUTLS_E_INCOMPATIBLE_SIG_WITH_KEY < 0

instance (K : Consts) : Decidable K.Negative := by
  unfold Consts.Negative; infer_instance

/-- The value of security_parameters.entity. -/
inductive Entity where
  | GNUTLS_SERVER
  | GNUTLS_CLIENT
deriving DecidableEq

/-- The fields of gnutls_sign_entry_st that certificate_verify.c reads:
`id` (the gnutls_sign_algorithm_t) and `aid.id[0]`, `aid.id[1]`. -/
structure gnutls_sign_entry_st where
  id : Nat
  aid : Byte × Byte
deriving DecidableEq

/-- The field of the certificate credentials that the receive path reads. -/
structure gnutls_certificate_credentials_st where
  verify_flags : Nat
deriving DecidableEq

/-- An opaque peer or local certificate descriptor (gnutls_pcert_st). -/
abbrev gnutls_pcert_st := Nat

/-- An opaque private key handle (gnutls_privkey_t). -/
abbrev gnutls_privkey_t := Nat

/-- An opaque certificate auth info handle (cert_auth_info_t). -/
abbrev cert_auth_info_t := Nat

/-- The part of the session that certificate_verify.c reads or writes.
`cred` is the result of `_gnutls_get_cred(session, GNUTLS_CRD_CERTIFICATE)`
and `auth_info` that of `_gnutls_get_auth_info(session, GNUTLS_CRD_CERTIFICATE)`;
`none` is the NULL pointer. -/
structure Session where
  hsk_flags : Nat
  additional_verify_flags : Nat
  entity : Entity
  cert_type : Nat
  pversion : Nat
  server_sign_algo : Nat
  client_sign_algo : Nat
  cred : Option gnutls_certificate_credentials_st
  auth_info : Option cert_auth_info_t
deriving DecidableEq

/-- One call to an outside collaborator (handshake transport, signature
registry, certificate subsystem, signing and verification), with the arguments
it was given. Plain accessors of session fields are read directly and are not
logged. -/
inductive Call where
  | recv_handshake
  | tls_aid_to_sign_entry (id0 id1 : Byte) (ver : Nat)
  | get_auth_info_pcert (cert_type : Nat) (info : cert_auth_info_t)
  | handshake_verify_data (vflags : Nat) (peer_cert : gnutls_pcert_st)
      (ctx : gnutls_datum_t) (sig_data : gnutls_datum_t) (se : gnutls_sign_entry_st)
  | get_selected_cert
  | session_get_sign_algo (cert : gnutls_pcert_st) (pkey : gnutls_privkey_t)
  | sign_to_entry (algo : Nat)
  | handshake_sign_data (cert : gnutls_pcert_st) (pkey : gnutls_privkey_t)
      (ctx : gnutls_datum_t) (se : Option gnutls_sign_entry_st)
  | send_handshake (bufel : Option (List Byte))
deriving DecidableEq

/-- The functions certificate_verify.c calls that are defined elsewhere in the
library, as deterministic functions of the session and their arguments.

* `_gnutls_recv_handshake` gives the return code and the received body;
* `_gnutls_tls_aid_to_sign_entry` gives `none` for NULL;
* `_gnutls_get_auth_info_pcert` gives the return code and the peer certificate;
* `_gnutls13_handshake_verify_data` gives the return code;
* `_gnutls_get_selected_cert` gives the return code, the certificate list
  (its length is apr_cert_list_length) and the private key;
* `_gnutls_session_get_sign_algo` gives the chosen gnutls_sign_algorithm_t;
* `_gnutls_sign_to_entry` gives `none` for NULL;
* `_gnutls13_handshake_sign_data` gives the return code and the signature;
* `_gnutls_send_handshake` gives the return code; its buffer argument is
  `none` when the caller passes a NULL bufel. -/
structure Env where
  _gnutls_recv_handshake : Session → Int × List Byte
  _gnutls_tls_aid_to_sign_entry : Byte → Byte → Nat → Option gnutls_sign_entry_st
  _gnutls_get_auth_info_pcert : Nat → cert_auth_info_t → Int × gnutls_pcert_st
  _gnutls13_handshake_verify_data : Session → Nat → gnutls_pcert_st → gnutls_datum_t →
    gnutls_datum_t → gnutls_sign_entry_st → Int
  _gnutls_get_selected_cert : Session → Int × List gnutls_pcert_st × gnutls_privkey_t
  _gnutls_session_get_sign_algo : Session → gnutls_pcert_st → gnutls_privkey_t → Nat
  _gnutls_sign_to_entry : Nat → Option gnutls_sign_entry_st
  _gnutls13_handshake_sign_data : Session → gnutls_pcert_st → gnutls_privkey_t →
    gnutls_datum_t → Option gnutls_sign_entry_st → Int × gnutls_datum_t
  _gnutls_send_handshake : Session → Option (List Byte) → Int

/-- The session together with the log of outside calls made so far
(oldest first). -/
structure State where
  session : Session
  calls : List Call
deriving DecidableEq

/-- Append one call to the log. -/
def State.log (st : State) (c : Call) : State :=
  { st with calls := st.calls ++ [c] }

/-! ## Constants of the file -/

def SRV_CTX : String := "TLS 1.3, server CertificateVerify"

/-- The datum `srv_ctx`: the bytes of SRV_CTX without the terminating zero. -/
def srv_ctx : gnutls_datum_t := SRV_CTX.toList.map (fun c => byteOfNat c.toNat)

/-! ## Helpers of the library that are used here -/

/-- Modelled from the spec: `gnutls_sign_algorithm_set_server` is declared in
a header and defined in another file of the library. The spec (4.3) has it
record the chosen algorithm in session state as the server's signature
algorithm. -/
def gnutls_sign_algorithm_set_server (session : Session) (algo : Nat) : Session :=
  { session with server_sign_algo := algo }

/-- Modelled from the spec: `gnutls_sign_algorithm_set_client` is declared in
a header and defined in another file of the library. The spec (4.3) has it
record the chosen algorithm in session state as the client's signature
algorithm. -/
def gnutls_sign_algorithm_set_client (session : Session) (algo : Nat) : Session :=
  { session with client_sign_algo := algo }

/-- Modelled from the spec: `_gnutls_read_uint16` is defined in another file
of the library. Spec 4.4: a big-endian 16-bit number, read from two bytes. -/
def _gnutls_read_uint16 (hi lo : Byte) : Nat := hi.val * 256 + lo.val

/-- Modelled from the spec: `_gnutls_write_uint16` is defined in another file
of the library. Spec 4.4: the low 16 bits of a number, written as two
big-endian bytes. -/
def _gnutls_write_uint16 (n : Nat) : List Byte := [byteOfNat (n / 256), byteOfNat n]

/-- Modelled from the spec: `_gnutls_buffer_pop_datum_prefix16` is defined in
another file of the library (the buffer codec). Spec 4.4:
`read_u16_prefixed(buffer) -> bytes | Truncated`, with a big-endian 16-bit
length prefix; spec 4.3 step 4: a truncated field fails with
ReceivedIllegalParameter. The result is the return code, the buffer that
remains and the datum; on success the length prefix and the datum are removed
from the front of the buffer, and a zero length gives the empty datum. -/
def _gnutls_buffer_pop_datum_prefix16 (K : Consts) (buf : List Byte) :
    Int × List Byte × gnutls_datum_t :=
  match buf with
  | hi :: lo :: rest =>
    let size := _gnutls_read_uint16 hi lo
    if size ≤ rest.length then (0, rest.drop size, rest.take size)
    else (K.GNUTLS_E_RECEIVED_ILLEGAL_PARAMETER, rest, [])
  | _ => (K.GNUTLS_E_RECEIVED_ILLEGAL_PARAMETER, buf, [])

/-- Modelled from the spec: `_gnutls_buffer_append_data` is defined in another
file of the library (the buffer codec). It appends the given bytes to the
buffer (spec 4.4, a growable byte buffer). -/
def _gnutls_buffer_append_data (buf : List Byte) (data : List Byte) : List Byte :=
  buf ++ data

/-- Modelled from the spec: `_gnutls_buffer_append_data_prefix` (called with
16 prefix bits) is defined in another file of the library (the buffer codec).
Spec 4.4: `write_u16_prefixed(buffer, bytes)` appends a big-endian 16-bit
length prefix and then the bytes. -/
def _gnutls_buffer_append_data_prefix (buf : List Byte) (data : List Byte) : List Byte :=
  buf ++ _gnutls_write_uint16 data.length ++ data

/-! ## The receive path -/

/-- The function `_gnutls13_recv_certificate_verify`
(lib/tls13/certificate_verify.c, lines 38 to 127): the return value and the
state afterwards. -/
def _gnutls13_recv_certificate_verify (K : Consts) (E : Env) (st : State) : Int × State :=
  let session := st.session
  let info := session.auth_info
  if session.hsk_flags &&& K.HSK_CRT_VRFY_EXPECTED = 0 then (0, st)
  else
    match session.cred with
    | none => (K.GNUTLS_E_INSUFFICIENT_CREDENTIALS, st)
    | some cred =>
    match info with
    | none => (K.GNUTLS_E_INTERNAL_ERROR, st)
    | some info =>
    let r := E._gnutls_recv_handshake session
    let st := st.log Call.recv_handshake
    if r.1 < 0 then (r.1, st)
    else
      match r.2 with
      | [] => (K.GNUTLS_E_UNEXPECTED_PACKET_LENGTH, st)
      | [_] => (K.GNUTLS_E_UNEXPECTED_PACKET_LENGTH, st)
      | d0 :: d1 :: buf =>
        let st := st.log (Call.tls_aid_to_sign_entry d0 d1 session.pversion)
        match E._gnutls_tls_aid_to_sign_entry d0 d1 session.pversion with
        | none => (K.GNUTLS_E_UNSUPPORTED_SIGNATURE_ALGORITHM, st)
        | some se =>
          let session := gnutls_sign_algorithm_set_server session se.id
          let st : State := { st with session := session }
          let p := _gnutls_buffer_pop_datum_prefix16 K buf
          let buf := p.2.1
          let sig_data := p.2.2
          if p.1 < 0 then (p.1, st)
          else if sig_data.length = 0 then (K.GNUTLS_E_RECEIVED_ILLEGAL_PARAMETER, st)
          else
            let c := E._gnutls_get_auth_info_pcert session.cert_type info
            let st := st.log (Call.get_auth_info_pcert session.cert_type info)
            if c.1 < 0 then (c.1, st)
            else
              let peer_cert := c.2
              let vflags := cred.verify_flags ||| session.additional_verify_flags
              let v := E._gnutls13_handshake_verify_data session vflags peer_cert
                srv_ctx sig_data se
              let st := st.log
                (Call.handshake_verify_data vflags peer_cert srv_ctx sig_data se)
              if v < 0 then (v, st)
              else if buf.length > 0 then (K.GNUTLS_E_UNEXPECTED_PACKET_LENGTH, st)
              else (0, st)

/-! ## The send path -/

/-- The function `_gnutls13_send_certificate_verify`
(lib/tls13/certificate_verify.c, lines 129 to 213): the return value and the
state afterwards. `none` is the undefined behaviour of reading `se->aid.id`
through a NULL `se`. -/
def _gnutls13_send_certificate_verify (K : Consts) (E : Env) (st : State) (again : Nat) :
    Option (Int × State) :=
  let session := st.session
  if again = 0 then
    let buf : List Byte := []
    let g := E._gnutls_get_selected_cert session
    let st := st.log Call.get_selected_cert
    if g.1 < 0 then some (g.1, st)
    else
      match g.2.1 with
      | [] =>
        if session.entity = Entity.GNUTLS_SERVER then
          some (K.GNUTLS_E_INSUFFICIENT_CREDENTIALS, st)
        else if session.hsk_flags &&& K.HSK_CRT_SENT = 0 then some (0, st)
        else some (K.GNUTLS_E_INTERNAL_ERROR, st)
      | cert0 :: _ =>
        let apr_pkey := g.2.2
        let algo := E._gnutls_session_get_sign_algo session cert0 apr_pkey
        let st := st.log (Call.session_get_sign_algo cert0 apr_pkey)
        if algo = K.GNUTLS_SIGN_UNKNOWN then some (K.GNUTLS_E_INCOMPATIBLE_SIG_WITH_KEY, st)
        else
          let session :=
            if session.entity = Entity.GNUTLS_SERVER then
              gnutls_sign_algorithm_set_server session algo
            else gnutls_sign_algorithm_set_client session algo
          let st : State := { st with session := session }
          let se := E._gnutls_sign_to_entry algo
          let st := st.log (Call.sign_to_entry algo)
          let s := E._gnutls13_handshake_sign_data session cert0 apr_pkey srv_ctx se
          let st := st.log (Call.handshake_sign_data cert0 apr_pkey srv_ctx se)
          if s.1 < 0 then some (s.1, st)
          else
            match se with
            | none => none
            | some se =>
              let sig := s.2
              let buf := _gnutls_buffer_append_data buf [se.aid.1, se.aid.2]
              let buf := ( _gnutls_buffer_append_data_prefix buf sig)
              let bufel := buf
              let ret := E._gnutls_send_handshake session (some bufel)
              some (ret, st.log (Call.send_handshake (some bufel)))
  else
    let ret := E._gnutls_send_handshake session none
    some (ret, st.log (Call.send_handshake none))

/-! ## Acceptance conditions of the receive path -/

/-- The conditions under which the receive function accepts: credentials and
auth info present, message received, body made of a two-byte algorithm id that
resolves, a big-endian 16-bit length that is at least 1 and equal to the number
of bytes that follow, peer certificate extracted, and verification called on
exactly those bytes with a non-negative result. -/
def recvAccepts (K : Consts) (E : Env) (st : State) : Prop :=
  ∃ (cred : gnutls_certificate_credentials_st) (info : cert_auth_info_t)
    (d0 d1 hi lo : Byte) (sig : List Byte) (se : gnutls_sign_entry_st),
    st.session.cred = some cred ∧ st.session.auth_info = some info ∧
    0 ≤ (E._gnutls_recv_handshake st.session).1 ∧
    (E._gnutls_recv_handshake st.session).2 = d0 :: d1 :: hi :: lo :: sig ∧
    E._gnutls_tls_aid_to_sign_entry d0 d1 st.session.pversion = some se ∧
    hi.val * 256 + lo.val = sig.length ∧ 1 ≤ sig.length ∧
    0 ≤ (E._gnutls_get_auth_info_pcert st.session.cert_type info).1 ∧
    (_gnutls13_recv_certificate_verify K E st).2.calls =
      st.calls ++ [Call.recv_handshake,
        Call.tls_aid_to_sign_entry d0 d1 st.session.pversion,
        Call.get_auth_info_pcert st.session.cert_type info,
        Call.handshake_verify_data
          (cred.verify_flags ||| st.session.additional_verify_flags)
          (E._gnutls_get_auth_info_pcert st.session.cert_type info).2 srv_ctx sig se] ∧
    0 ≤ E._gnutls13_handshake_verify_data
      (gnutls_sign_algorithm_set_server st.session se.id)
      (cred.verify_flags ||| st.session.additional_verify_flags)
      (E._gnutls_get_auth_info_pcert st.session.cert_type info).2 srv_ctx sig se

/-! ## Sample inputs -/

/-- A sample assignment of the header constants. -/
def sampleConsts : Consts where
  HSK_CRT_VRFY_EXPECTED := 1
  HSK_CRT_SENT := 2
  GNUTLS_SIGN_UNKNOWN := 0
  GNUTLS_E_INSUFFICIENT_CREDENTIALS := -32
  GNUTLS_E_INTERNAL_ERROR := -59
  GNUTLS_E_UNEXPECTED_PACKET_LENGTH := -9
  GNUTLS_E_UNSUPPORTED_SIGNATURE_ALGORITHM := -106
  GNUTLS_E_RECEIVED_ILLEGAL_PARAMETER := -55
  GNUTLS_E_INCOMPATIBLE_SIG_WITH_KEY := -330

/-- A sample signature entry with wire id 08 04. -/
def sampleEntry : gnutls_sign_entry_st := { id := 28, aid := (8, 4) }

/-- A sample session with the given handshake flags and entity, with
credentials and auth info present. -/
def sampleSession (flags : Nat) (entity : Entity) : Session where
  hsk_flags := flags
  additional_verify_flags := 4
  entity := entity
  cert_type := 1
  pversion := 5
  server_sign_algo := 0
  client_sign_algo := 0
  cred := some { verify_flags := 8 }
  auth_info := some 7

/-- A sample environment: the peer sends `body`; wire id 08 04 resolves to
`sampleEntry`; the peer certificate is 11; verification accepts exactly the
signature `[1, 2, 3]`; the local certificate list is `certs`; signing
produces `[1, 2, 3]`. -/
def sampleEnv (body : List Byte) (certs : List gnutls_pcert_st) : Env where
  _gnutls_recv_handshake := fun _ => (0, body)
  _gnutls_tls_aid_to_sign_entry := fun a b _ =>
    if a = 8 ∧ b = 4 then some sampleEntry else none
  _gnutls_get_auth_info_pcert := fun _ _ => (0, 11)
  _gnutls13_handshake_verify_data := fun _ _ _ _ sig _ =>
    if sig = [1, 2, 3] then 0 else -43
  _gnutls_get_selected_cert := fun _ => (0, certs, 13)
  _gnutls_session_get_sign_algo := fun _ _ _ => 28
  _gnutls_sign_to_entry := fun algo => if algo = 28 then some sampleEntry else none
  _gnutls13_handshake_sign_data := fun _ _ _ _ _ => (0, [1, 2, 3])
  _gnutls_send_handshake := fun _ _ => 0

/-- The state with an empty call log. -/
def sampleState (flags : Nat) (entity : Entity) : State :=
  { session := sampleSession flags entity, calls := [] }

/-- A sample environment in which the algorithm selection finds no usable
algorithm for the local certificate 21. -/
def sampleEnvNoAlgo : Env :=
  { sampleEnv [] [21] with _gnutls_session_get_sign_algo := fun _ _ _ => 0 }

/-- A sample environment in which signing fails with code -1. -/
def sampleEnvSignFails : Env :=
  { sampleEnv [] [21] with _gnutls13_handshake_sign_data := fun _ _ _ _ _ => (-1, []) }

/-- The state after a first send by the sample server with certificate 21:
the algorithm 28 is recorded and the body 08 04 00 03 01 02 03 was handed to
the handshake send primitive. -/
def sampleStateSent : State :=
  { session := gnutls_sign_algorithm_set_server (sampleSession 2 Entity.GNUTLS_SERVER) 28,
    calls := [Call.get_selected_cert, Call.session_get_sign_algo 21 13,
      Call.sign_to_entry 28, Call.handshake_sign_data 21 13 srv_ctx (some sampleEntry),
      Call.send_handshake (some [8, 4, 0, 3, 1, 2, 3])] }

/-- A sample server-side state that expects a CertificateVerify message: the
server's own algorithm 9 is already recorded, the client's is not (0). -/
def sampleServerState : State :=
  { session := { sampleSession 1 Entity.GNUTLS_SERVER with server_sign_algo := 9 },
    calls := [] }

/-- The context strings given to the signer in a call log, oldest first. -/
def signContexts (calls : List Call) : List gnutls_datum_t :=
  calls.filterMap fun c =>
    match c with
    | Call.handshake_sign_data _ _ ctx _ => some ctx
    | _ => none

/-! ## SRP arithmetic and hashing (lib/gnutls_srp.c)

An MPI is a natural number. The libgcrypt primitives are given by their
documented meaning. The random exponents drawn with `gcry_mpi_randomize` are
inputs of the model, and the NULL results on allocation failure have no
counterpart. -/

/-- The libgcrypt primitive `gcry_mpi_powm (w, b, e, m)`: w = b^e mod m. -/
def gcry_mpi_powm (b e m : Nat) : Nat := b ^ e % m

/-- The libgcrypt primitive `gcry_mpi_mulm (w, u, v, m)`: w = u * v mod m. -/
def gcry_mpi_mulm (u v m : Nat) : Nat := u * v % m

/-- The libgcrypt primitive `gcry_mpi_addm (w, u, v, m)`: w = u + v mod m. -/
def gcry_mpi_addm (u v m : Nat) : Nat := (u + v) % m

/-- The libgcrypt primitive `gcry_mpi_subm (w, u, v, m)`: w = u - v mod m, the
representative between 0 and m - 1. -/
def gcry_mpi_subm (u v m : Nat) : Nat := (((u : Int) - (v : Int)) % (m : Int)).toNat

/-- The libgcrypt primitive `gcry_mpi_mul (w, u, v)`: w = u * v. -/
def gcry_mpi_mul (u v : Nat) : Nat := u * v

/-- The libgcrypt primitive `gcry_mpi_add (w, u, v)`: w = u + v. -/
def gcry_mpi_add (u v : Nat) : Nat := u + v

/-- The function `_gnutls_calc_srp_B` (lines 77 to 119), with the random value
`b` it draws as an input: the result B = (v + g^b) % N and the value stored
through `ret_b`. -/
def _gnutls_calc_srp_B (b g n v : Nat) : Nat × Nat :=
  let tmpB := gcry_mpi_powm g b n
  let B := gcry_mpi_addm v tmpB n
  (B, b)

/-- The function `_gnutls_calc_srp_S1` (lines 161 to 187):
S = (A * v^u) ^ b % N. -/
def _gnutls_calc_srp_S1 (A b u v n : Nat) : Nat :=
  let tmp1 := gcry_mpi_powm v u n
  let tmp2 := gcry_mpi_mulm A tmp1 n
  gcry_mpi_powm tmp2 b n

/-- The function `_gnutls_calc_srp_A` (lines 192 to 221), with the random value
`tmpa` it draws as an input: the result A = g^a % N and the value stored
through `a`. -/
def _gnutls_calc_srp_A (tmpa g n : Nat) : Nat × Nat :=
  let A := gcry_mpi_powm g tmpa n
  (A, tmpa)

/-- The function `_gnutls_calc_srp_S2` (lines 276 to 309):
S = (B - g^x) ^ (a + u * x) % N. -/
def _gnutls_calc_srp_S2 (B g x a u n : Nat) : Nat :=
  let tmp1 := gcry_mpi_powm g x n
  let tmp2 := gcry_mpi_subm B tmp1 n
  let tmp1 := gcry_mpi_mul u x
  let tmp4 := gcry_mpi_add a tmp1
  gcry_mpi_powm tmp2 tmp4 n

/-- The out-parameters `*size` and `digest` of the SRP hash functions. -/
structure SrpOut where
  size : Int
  digest : List Byte
deriving DecidableEq

/-- What gnutls_srp.c takes from elsewhere for hashing: the digest function of
GNUTLS_MAC_SHA, whether the k-th `gnutls_hash_init` of a call yields a handle
(`false` is NULL), the crypt algorithm constants, the memory error code, and
the function `_gnutls_calc_srp_bcrypt`. -/
structure HashEnv where
  sha1 : List Byte → List Byte
  hash_init_ok : Nat → Bool
  SRPSHA1_CRYPT : Nat
  BLOWFISH_CRYPT : Nat
  GNUTLS_E_MEMORY_ERROR : Int
  _gnutls_calc_srp_bcrypt : List Byte → List Byte → List Byte → SrpOut → Int × SrpOut

/-- A hash handle: the bytes fed to it so far. -/
abbrev GNUTLS_MAC_HANDLE := List Byte

/-- Feeding bytes to a hash handle (`gnutls_hash`). -/
def gnutls_hash (td : GNUTLS_MAC_HANDLE) (text : List Byte) : GNUTLS_MAC_HANDLE :=
  td ++ text

/-- Closing a hash handle (`gnutls_hash_deinit`): the digest of the bytes fed. -/
def gnutls_hash_deinit (H : HashEnv) (td : GNUTLS_MAC_HANDLE) : List Byte :=
  H.sha1 td

/-- The function `_gnutls_calc_srp_sha` (lines 226 to 255). The C strings
`username` and `password` are their bytes before the terminating zero; `salt`
carries `salt_size` bytes. The second hash is fed the first 20 bytes of the
buffer `res`. -/
def _gnutls_calc_srp_sha (H : HashEnv) (username password salt : List Byte)
    (out : SrpOut) : Int × SrpOut :=
  let out := { out with size := 20 }
  if H.hash_init_ok 0 = false then (H.GNUTLS_E_MEMORY_ERROR, out)
  else
    let td : GNUTLS_MAC_HANDLE := []
    let td := gnutls_hash td username
    let td := gnutls_hash td [58]
    let td := gnutls_hash td password
    let res := gnutls_hash_deinit H td
    if H.hash_init_ok 1 = false then (H.GNUTLS_E_MEMORY_ERROR, out)
    else
      let td : GNUTLS_MAC_HANDLE := []
      let td := gnutls_hash td salt
      let td := gnutls_hash td (res.take 20)
      (0, { out with digest := gnutls_hash_deinit H td })

/-- The function `_gnutls_calc_srp_x` (lines 257 to 270). -/
def _gnutls_calc_srp_x (H : HashEnv) (username password salt : List Byte)
    (crypt_algo : Nat) (out : SrpOut) : Int × SrpOut :=
  if crypt_algo = H.SRPSHA1_CRYPT then _gnutls_calc_srp_sha H username password salt out
  else if crypt_algo = H.BLOWFISH_CRYPT then
    H._gnutls_calc_srp_bcrypt username password salt out
  else (-1, out)

/-- A sample hashing environment: the digest is 20 copies of the low byte of
the input length, both handles can be created. -/
def sampleHashEnv : HashEnv where
  sha1 := fun m => List.replicate 20 (byteOfNat m.length)
  hash_init_ok := fun _ => true
  SRPSHA1_CRYPT := 1
  BLOWFISH_CRYPT := 2
  GNUTLS_E_MEMORY_ERROR := -25
  _gnutls_calc_srp_bcrypt := fun _ _ _ out => (0, out)

/-! ## OpenPGP private keys (lib/openpgp/privkey.c)

A keyblock (`key->knode`) is the list of its packets in walking order. A NULL
pointer argument is `none`. The `int` counters of the walks are natural
numbers: a keyblock holds fewer than 2^31 packets. -/

/-- Header constants and the one ABI constant used by privkey.c. The type
gnutls_openpgp_keyid_t is an array of 8 bytes (locals of that type are filled
through `keyid` and `keyid+4`), so a parameter `keyid` of that type is a
pointer and `sizeof(keyid)` is the size of a pointer: `sizeof_keyid`. -/
structure PgpConsts where
  CDK_PKT_SECRET_KEY : Nat
  CDK_PKT_SECRET_SUBKEY : Nat
  GNUTLS_E_INVALID_REQUEST : Int
  GNUTLS_E_OPENPGP_GETKEY_FAILED : Int
  sizeof_keyid : Nat

/-- The fields of a public key packet that privkey.c reads; `tag` tells two
packets with equal fields apart. -/
structure cdk_pkt_pubkey_t where
  pubkey_algo : Nat
  version : Nat
  tag : Nat
deriving DecidableEq

/-- The fields of a secret key packet that privkey.c reads. -/
structure cdk_pkt_seckey_t where
  pk : cdk_pkt_pubkey_t
  is_revoked : Nat
deriving DecidableEq

/-- A packet: its type and, for secret key and secret subkey packets, the
member `pkt.secret_key` of its union. -/
structure cdk_packet_t where
  pkttype : Nat
  secret_key : cdk_pkt_seckey_t
deriving DecidableEq

/-- The structure gnutls_openpgp_privkey_int: the keyblock, the preferred key
id (8 bytes) and the flag that it has been set. -/
structure gnutls_openpgp_privkey_int where
  knode : List cdk_packet_t
  preferred_keyid : List Byte
  preferred_set : Nat
deriving DecidableEq

/-- What privkey.c takes from elsewhere: the key id of a secret key
(`cdk_sk_get_keyid`, two 32-bit words), the writing of a 32-bit word as 4
bytes, the macro `KEYID_IMPORT`, the subkey lookup by key id, the macro
`is_RSA`, and the fingerprint written by `cdk_pk_get_fingerprint` into a buffer
with the given contents. -/
structure PgpEnv where
  cdk_sk_get_keyid : cdk_pkt_seckey_t → Nat × Nat
  _gnutls_write_uint32 : Nat → List Byte
  KEYID_IMPORT : List Byte → Nat × Nat
  _gnutls_openpgp_find_subkey_idx : List cdk_packet_t → Nat × Nat → Int
  is_RSA : Nat → Bool
  cdk_pk_get_fingerprint : cdk_pkt_pubkey_t → List Byte → List Byte

/-- The C library function `memcpy (dst, src, n)` on buffers given by their
contents: the first n bytes of dst become the first n bytes of src. -/
def memcpy (dst src : List Byte) (n : Nat) : List Byte :=
  src.take n ++ dst.drop n

/-- The opencdk function `cdk_kbnode_find_packet`: the first packet of the
keyblock with the given type, NULL when there is none. -/
def cdk_kbnode_find_packet (knode : List cdk_packet_t) (pkttype : Nat) :
    Option cdk_packet_t :=
  knode.find? (fun pkt => pkt.pkttype = pkttype)

/-- The function `gnutls_openpgp_privkey_get_fingerprint` (lines 241 to 272):
the return value and the contents of `fpr` and `*fprlen` afterwards. -/
def gnutls_openpgp_privkey_get_fingerprint (K : PgpConsts) (E : PgpEnv)
    (key : gnutls_openpgp_privkey_int) (fpr : Option (List Byte)) (fprlen : Option Nat) :
    Int × Option (List Byte) × Option Nat :=
  match fpr, fprlen with
  | some buf, some _ =>
    match cdk_kbnode_find_packet key.knode K.CDK_PKT_SECRET_KEY with
    | none => (K.GNUTLS_E_OPENPGP_GETKEY_FAILED, some buf, some 0)
    | some pkt =>
      let pk := pkt.secret_key.pk
      let len := if E.is_RSA pk.pubkey_algo = true ∧ pk.version < 4 then 16 else 20
      (0, some (E.cdk_pk_get_fingerprint pk buf), some len)
  | _, _ => (K.GNUTLS_E_INVALID_REQUEST, fpr, fprlen)

/-- The walk of `gnutls_openpgp_privkey_get_subkey_count` over the remaining
packets, with the counter `subkeys`. -/
def subkey_count_walk (K : PgpConsts) : List cdk_packet_t → Nat → Nat
  | [], subkeys => subkeys
  | pkt :: rest, subkeys =>
    if pkt.pkttype = K.CDK_PKT_SECRET_SUBKEY then subkey_count_walk K rest (subkeys + 1)
    else subkey_count_walk K rest subkeys

/-- The function `gnutls_openpgp_privkey_get_subkey_count` (lines 315 to 338). -/
def gnutls_openpgp_privkey_get_subkey_count (K : PgpConsts)
    (key : Option gnutls_openpgp_privkey_int) : Int :=
  match key with
  | none => 0
  | some k => (subkey_count_walk K k.knode 0 : Nat)

/-- The walk of `_get_secret_subkey` over the remaining packets, with the
counter `subkeys`: the counter is compared and incremented only at packets of
type CDK_PKT_SECRET_SUBKEY. -/
def secret_subkey_walk (K : PgpConsts) (indx : Nat) : List cdk_packet_t → Nat →
    Option cdk_packet_t
  | [], _ => none
  | pkt :: rest, subkeys =>
    if pkt.pkttype = K.CDK_PKT_SECRET_SUBKEY then
      if indx = subkeys then some pkt else secret_subkey_walk K indx rest (subkeys + 1)
    else secret_subkey_walk K indx rest subkeys

/-- The function `_get_secret_subkey` (lines 341 to 357); `none` is NULL. -/
def _get_secret_subkey (K : PgpConsts) (key : gnutls_openpgp_privkey_int) (indx : Nat) :
    Option cdk_packet_t :=
  secret_subkey_walk K indx key.knode 0

/-- The function `gnutls_openpgp_privkey_get_subkey_revoked_status`
(lines 368 to 385). -/
def gnutls_openpgp_privkey_get_subkey_revoked_status (K : PgpConsts)
    (key : Option gnutls_openpgp_privkey_int) (idx : Nat) : Int :=
  match key with
  | none => K.GNUTLS_E_INVALID_REQUEST
  | some k =>
    match _get_secret_subkey K k idx with
    | none => K.GNUTLS_E_OPENPGP_GETKEY_FAILED
    | some pkt => if pkt.secret_key.is_revoked ≠ 0 then 1 else 0

/-- The function `gnutls_openpgp_privkey_get_subkey_idx` (lines 441 to 463). -/
def gnutls_openpgp_privkey_get_subkey_idx (K : PgpConsts) (E : PgpEnv)
    (key : Option gnutls_openpgp_privkey_int) (keyid : List Byte) : Int :=
  match key with
  | none => K.GNUTLS_E_INVALID_REQUEST
  | some k =>
    let kid := E.KEYID_IMPORT keyid
    E._gnutls_openpgp_find_subkey_idx k.knode kid

/-- The function `gnutls_openpgp_privkey_get_subkey_id` (lines 524 to 545): the
return value and the contents of `keyid` afterwards. -/
def gnutls_openpgp_privkey_get_subkey_id (K : PgpConsts) (E : PgpEnv)
    (key : Option gnutls_openpgp_privkey_int) (idx : Nat) (keyid : Option (List Byte)) :
    Int × Option (List Byte) :=
  match key, keyid with
  | some k, some buf =>
    match _get_secret_subkey K k idx with
    | none => (K.GNUTLS_E_OPENPGP_GETKEY_FAILED, some buf)
    | some pkt =>
      let kid := E.cdk_sk_get_keyid pkt.secret_key
      let buf := memcpy buf (E._gnutls_write_uint32 kid.1) 4
      let buf := buf.take 4 ++ memcpy (buf.drop 4) (E._gnutls_write_uint32 kid.2) 4
      (0, some buf)
  | _, _ => (K.GNUTLS_E_INVALID_REQUEST, keyid)

/-- The function `gnutls_openpgp_privkey_get_preferred_key_id`
(lines 977 to 989): the return value and the contents of `keyid` afterwards. -/
def gnutls_openpgp_privkey_get_preferred_key_id (K : PgpConsts)
    (key : Option gnutls_openpgp_privkey_int) (keyid : Option (List Byte)) :
    Int × Option (List Byte) :=
  match key, keyid with
  | some k, some buf =>
    if k.preferred_set = 0 then (K.GNUTLS_E_INVALID_REQUEST, some buf)
    else (0, some (memcpy buf k.preferred_keyid K.sizeof_keyid))
  | _, _ => (K.GNUTLS_E_INVALID_REQUEST, keyid)

/-- The function `gnutls_openpgp_privkey_set_preferred_key_id`
(lines 1000 to 1025): the return value and the key afterwards. -/
def gnutls_openpgp_privkey_set_preferred_key_id (K : PgpConsts) (E : PgpEnv)
    (key : Option gnutls_openpgp_privkey_int) (keyid : List Byte) :
    Int × Option gnutls_openpgp_privkey_int :=
  match key with
  | none => (K.GNUTLS_E_INVALID_REQUEST, none)
  | some k =>
    let ret := gnutls_openpgp_privkey_get_subkey_idx K E (some k) keyid
    if ret < 0 then (ret, some k)
    else
      (0, some { k with preferred_set := 1,
                        preferred_keyid := memcpy k.preferred_keyid keyid K.sizeof_keyid })

/-- Sample constants for a build with 4-byte pointers (`sizeof_keyid` = 4) or
8-byte pointers (`sizeof_keyid` = 8). -/
def samplePgpConsts (ptr : Nat) : PgpConsts where
  CDK_PKT_SECRET_KEY := 5
  CDK_PKT_SECRET_SUBKEY := 7
  GNUTLS_E_INVALID_REQUEST := -50
  GNUTLS_E_OPENPGP_GETKEY_FAILED := -88
  sizeof_keyid := ptr

/-- A sample packet of the given type, public key algorithm and version. -/
def samplePacket (pkttype algo version tag : Nat) : cdk_packet_t :=
  { pkttype := pkttype,
    secret_key := { pk := { pubkey_algo := algo, version := version, tag := tag },
                    is_revoked := 0 } }

/-- A sample environment: the key id of a secret key is (0, tag of its public
key); the subkey lookup finds exactly the key id whose last byte is 8, at index
0; algorithm 1 is RSA. -/
def samplePgpEnv : PgpEnv where
  cdk_sk_get_keyid := fun sk => (0, sk.pk.tag)
  _gnutls_write_uint32 := fun n =>
    [byteOfNat (n / 16777216), byteOfNat (n / 65536), byteOfNat (n / 256), byteOfNat n]
  KEYID_IMPORT := fun keyid => (0, (keyid.getLast?.map Fin.val).getD 0)
  _gnutls_openpgp_find_subkey_idx := fun _ kid => if kid.2 = 8 then 0 else -88
  is_RSA := fun a => a == 1
  cdk_pk_get_fingerprint := fun _ buf => buf

/-- A sample key as `gnutls_openpgp_privkey_init` leaves it (all zero) once a
keyblock is attached: a user id packet, the primary secret key (RSA, version
3), a secret subkey, a signature packet and a second secret subkey. -/
def samplePrivkey : gnutls_openpgp_privkey_int where
  knode := [samplePacket 13 0 0 0, samplePacket 5 1 3 1, samplePacket 7 1 4 2,
    samplePacket 2 0 0 3, samplePacket 7 17 4 4]
  preferred_keyid := [0, 0, 0, 0, 0, 0, 0, 0]
  preferred_set := 0

/-- The secret subkey packets of a key, in keyblock order. -/
def secret_subkeys (K : PgpConsts) (key : gnutls_openpgp_privkey_int) : List cdk_packet_t :=
  key.knode.filter (fun pkt => pkt.pkttype = K.CDK_PKT_SECRET_SUBKEY)

/-! ## The receive path: theorems -/

/-- C2: when HSK_CRT_VRFY_EXPECTED is not set in hsk_flags, the receive
function returns 0 and the state afterwards is the state before: the session
(the recorded signature algorithms included) is unchanged and no outside
function (handshake read, verification) was called, whatever the credentials,
the auth info and the environment are. -/
theorem recv_not_expected (K : Consts) (E : Env) (st : State)
    (hflag : st.session.hsk_flags &&& K.HSK_CRT_VRFY_EXPECTED = 0) :
    _gnutls13_recv_certificate_verify K E st = (0, st) := by
  simp [_gnutls13_recv_certificate_verify, hflag]

theorem recv_not_expected_witness :
    (sampleState 2 Entity.GNUTLS_CLIENT).session.hsk_flags
        &&& sampleConsts.HSK_CRT_VRFY_EXPECTED = 0 ∧
      _gnutls13_recv_certificate_verify sampleConsts (sampleEnv [8, 4] [])
        (sampleState 2 Entity.GNUTLS_CLIENT) = (0, sampleState 2 Entity.GNUTLS_CLIENT) :=
  ⟨by decide, recv_not_expected sampleConsts (sampleEnv [8, 4] [])
    (sampleState 2 Entity.GNUTLS_CLIENT) (by decide)⟩

/-- C3: on the receive path (flag set, credentials and auth info present,
message received) a body of length 0 or 1 gives
GNUTLS_E_UNEXPECTED_PACKET_LENGTH; the only outside call made is the handshake
read, so no algorithm is resolved and verification is not invoked, and the
session is unchanged. -/
theorem recv_short_body (K : Consts) (E : Env) (st : State)
    (cred : gnutls_certificate_credentials_st) (info : cert_auth_info_t)
    (hflag : st.session.hsk_flags &&& K.HSK_CRT_VRFY_EXPECTED ≠ 0)
    (hcred : st.session.cred = some cred) (hinfo : st.session.auth_info = some info)
    (hrecv : 0 ≤ (E._gnutls_recv_handshake st.session).1)
    (hlen : (E._gnutls_recv_handshake st.session).2.length < 2) :
    _gnutls13_recv_certificate_verify K E st =
      (K.GNUTLS_E_UNEXPECTED_PACKET_LENGTH,
        { session := st.session, calls := st.calls ++ [Call.recv_handshake] }) := by
  have hr : ¬ (E._gnutls_recv_handshake st.session).1 < 0 := not_lt.mpr hrecv
  rcases hb : (E._gnutls_recv_handshake st.session).2 with _ | ⟨a, _ | ⟨b, rest⟩⟩
  · simp [_gnutls13_recv_certificate_verify, hflag, hcred, hinfo, hr, hb, State.log]
  · simp [_gnutls13_recv_certificate_verify, hflag, hcred, hinfo, hr, hb, State.log]
  · rw [hb] at hlen; simp only [List.length_cons] at hlen; omega

theorem recv_short_body_witness :
    _gnutls13_recv_certificate_verify sampleConsts (sampleEnv [8] [])
        (sampleState 1 Entity.GNUTLS_CLIENT) =
      (sampleConsts.GNUTLS_E_UNEXPECTED_PACKET_LENGTH,
        { session := (sampleState 1 Entity.GNUTLS_CLIENT).session,
          calls := (sampleState 1 Entity.GNUTLS_CLIENT).calls ++ [Call.recv_handshake] }) :=
  recv_short_body sampleConsts (sampleEnv [8] []) (sampleState 1 Entity.GNUTLS_CLIENT)
    { verify_flags := 8 } 7 (by decide) rfl rfl (by decide) (by decide)

/-- C4: on the receive path, a body of at least two bytes whose first two
bytes do not resolve to a signature entry for the negotiated version gives
GNUTLS_E_UNSUPPORTED_SIGNATURE_ALGORITHM, whatever bytes follow; the outside
calls made are the handshake read and the registry lookup only, so
verification is not invoked, and the session is unchanged. -/
theorem recv_unresolved_algorithm (K : Consts) (E : Env) (st : State)
    (cred : gnutls_certificate_credentials_st) (info : cert_auth_info_t)
    (d0 d1 : Byte) (rest : List Byte)
    (hflag : st.session.hsk_flags &&& K.HSK_CRT_VRFY_EXPECTED ≠ 0)
    (hcred : st.session.cred = some cred) (hinfo : st.session.auth_info = some info)
    (hrecv : 0 ≤ (E._gnutls_recv_handshake st.session).1)
    (hbody : (E._gnutls_recv_handshake st.session).2 = d0 :: d1 :: rest)
    (hse : E._gnutls_tls_aid_to_sign_entry d0 d1 st.session.pversion = none) :
    _gnutls13_recv_certificate_verify K E st =
      (K.GNUTLS_E_UNSUPPORTED_SIGNATURE_ALGORITHM,
        { session := st.session,
          calls := st.calls ++ [Call.recv_handshake,
            Call.tls_aid_to_sign_entry d0 d1 st.session.pversion] }) := by
  have hr : ¬ (E._gnutls_recv_handshake st.session).1 < 0 := not_lt.mpr hrecv
  simp [_gnutls13_recv_certificate_verify, hflag, hcred, hinfo, hr, hbody, hse, State.log]

theorem recv_unresolved_algorithm_witness :
    _gnutls13_recv_certificate_verify sampleConsts (sampleEnv [8, 5, 0, 3, 1, 2, 3] [])
        (sampleState 1 Entity.GNUTLS_CLIENT) =
      (sampleConsts.GNUTLS_E_UNSUPPORTED_SIGNATURE_ALGORITHM,
        { session := (sampleState 1 Entity.GNUTLS_CLIENT).session,
          calls := (sampleState 1 Entity.GNUTLS_CLIENT).calls ++ [Call.recv_handshake,
            Call.tls_aid_to_sign_entry 8 5
              (sampleState 1 Entity.GNUTLS_CLIENT).session.pversion] }) :=
  recv_unresolved_algorithm sampleConsts (sampleEnv [8, 5, 0, 3, 1, 2, 3] [])
    (sampleState 1 Entity.GNUTLS_CLIENT) { verify_flags := 8 } 7 8 5 [0, 3, 1, 2, 3]
    (by decide) rfl rfl (by decide) rfl (by decide)

/-- C5: on the receive path, when the algorithm id resolves and the 16-bit
signature length field is 0, the result is GNUTLS_E_RECEIVED_ILLEGAL_PARAMETER;
the outside calls made are the handshake read and the registry lookup only, so
neither the peer certificate extraction nor verification is invoked. -/
theorem recv_zero_length_signature (K : Consts) (E : Env) (st : State)
    (cred : gnutls_certificate_credentials_st) (info : cert_auth_info_t)
    (d0 d1 hi lo : Byte) (rest : List Byte) (se : gnutls_sign_entry_st)
    (hflag : st.session.hsk_flags &&& K.HSK_CRT_VRFY_EXPECTED ≠ 0)
    (hcred : st.session.cred = some cred) (hinfo : st.session.auth_info = some info)
    (hrecv : 0 ≤ (E._gnutls_recv_handshake st.session).1)
    (hbody : (E._gnutls_recv_handshake st.session).2 = d0 :: d1 :: hi :: lo :: rest)
    (hse : E._gnutls_tls_aid_to_sign_entry d0 d1 st.session.pversion = some se)
    (hzero : hi.val * 256 + lo.val = 0) :
    _gnutls13_recv_certificate_verify K E st =
      (K.GNUTLS_E_RECEIVED_ILLEGAL_PARAMETER,
        { session := gnutls_sign_algorithm_set_server st.session se.id,
          calls := st.calls ++ [Call.recv_handshake,
            Call.tls_aid_to_sign_entry d0 d1 st.session.pversion] }) := by
  have hr : ¬ (E._gnutls_recv_handshake st.session).1 < 0 := not_lt.mpr hrecv
  simp [_gnutls13_recv_certificate_verify, hflag, hcred, hinfo, hr, hbody, hse, State.log,
    _gnutls_buffer_pop_datum_prefix16, _gnutls_read_uint16, hzero]

theorem recv_zero_length_signature_witness :
    _gnutls13_recv_certificate_verify sampleConsts (sampleEnv [8, 4, 0, 0, 9] [])
        (sampleState 1 Entity.GNUTLS_CLIENT) =
      (sampleConsts.GNUTLS_E_RECEIVED_ILLEGAL_PARAMETER,
        { session := gnutls_sign_algorithm_set_server
            (sampleState 1 Entity.GNUTLS_CLIENT).session sampleEntry.id,
          calls := (sampleState 1 Entity.GNUTLS_CLIENT).calls ++ [Call.recv_handshake,
            Call.tls_aid_to_sign_entry 8 4
              (sampleState 1 Entity.GNUTLS_CLIENT).session.pversion] }) :=
  recv_zero_length_signature sampleConsts (sampleEnv [8, 4, 0, 0, 9] [])
    (sampleState 1 Entity.GNUTLS_CLIENT) { verify_flags := 8 } 7 8 4 0 0 [9] sampleEntry
    (by decide) rfl rfl (by decide) rfl (by decide) (by decide)

/-- Recording the server's algorithm leaves the other fields as they are. -/
theorem set_server_fields (s : Session) (a : Nat) :
    (gnutls_sign_algorithm_set_server s a).cert_type = s.cert_type ∧
    (gnutls_sign_algorithm_set_server s a).additional_verify_flags
      = s.additional_verify_flags ∧
    (gnutls_sign_algorithm_set_server s a).pversion = s.pversion ∧
    (gnutls_sign_algorithm_set_server s a).hsk_flags = s.hsk_flags ∧
    (gnutls_sign_algorithm_set_server s a).entity = s.entity ∧
    (gnutls_sign_algorithm_set_server s a).client_sign_algo = s.client_sign_algo ∧
    (gnutls_sign_algorithm_set_server s a).server_sign_algo = a :=
  ⟨rfl, rfl, rfl, rfl, rfl, rfl, rfl⟩

/-- Popping a length-prefixed datum that is fully present: the datum is
returned and what follows it remains. -/
theorem pop_datum_prefix16_append (K : Consts) (hi lo : Byte) (sig tail : List Byte)
    (hlen : hi.val * 256 + lo.val = sig.length) :
    _gnutls_buffer_pop_datum_prefix16 K (hi :: lo :: (sig ++ tail)) = (0, tail, sig) := by
  simp [_gnutls_buffer_pop_datum_prefix16, _gnutls_read_uint16, hlen]

/-- Popping a truncated length-prefixed datum fails with the code the spec
gives for it. -/
theorem pop_datum_prefix16_truncated (K : Consts) (rest : List Byte)
    (htrunc : rest.length < 2 ∨
      ∃ hi lo tail, rest = hi :: lo :: tail ∧ tail.length < hi.val * 256 + lo.val) :
    (_gnutls_buffer_pop_datum_prefix16 K rest).1 = K.GNUTLS_E_RECEIVED_ILLEGAL_PARAMETER := by
  rcases htrunc with h | ⟨hi, lo, tail, rfl, h⟩
  · rcases rest with _ | ⟨a, _ | ⟨b, rest⟩⟩
    · simp [_gnutls_buffer_pop_datum_prefix16]
    · simp [_gnutls_buffer_pop_datum_prefix16]
    · simp only [List.length_cons] at h; omega
  · have h2 : ¬ (hi.val * 256 + lo.val ≤ tail.length) := by omega
    simp [_gnutls_buffer_pop_datum_prefix16, _gnutls_read_uint16, h2]

/-- C6: on the receive path, when the algorithm id resolves but the signature
field is truncated (fewer than two bytes remain for the length prefix, or the
declared 16-bit length is larger than the number of bytes that remain), the
result is GNUTLS_E_RECEIVED_ILLEGAL_PARAMETER; the outside calls made are the
handshake read and the registry lookup only, so verification is not invoked. -/
theorem recv_truncated_signature (K : Consts) (E : Env) (st : State)
    (cred : gnutls_certificate_credentials_st) (info : cert_auth_info_t)
    (d0 d1 : Byte) (rest : List Byte) (se : gnutls_sign_entry_st)
    (hK : K.Negative)
    (hflag : st.session.hsk_flags &&& K.HSK_CRT_VRFY_EXPECTED ≠ 0)
    (hcred : st.session.cred = some cred) (hinfo : st.session.auth_info = some info)
    (hrecv : 0 ≤ (E._gnutls_recv_handshake st.session).1)
    (hbody : (E._gnutls_recv_handshake st.session).2 = d0 :: d1 :: rest)
    (hse : E._gnutls_tls_aid_to_sign_entry d0 d1 st.session.pversion = some se)
    (htrunc : rest.length < 2 ∨
      ∃ hi lo tail, rest = hi :: lo :: tail ∧ tail.length < hi.val * 256 + lo.val) :
    _gnutls13_recv_certificate_verify K E st =
      (K.GNUTLS_E_RECEIVED_ILLEGAL_PARAMETER,
        { session := gnutls_sign_algorithm_set_server st.session se.id,
          calls := st.calls ++ [Call.recv_handshake,
            Call.tls_aid_to_sign_entry d0 d1 st.session.pversion] }) := by
  have hr : ¬ (E._gnutls_recv_handshake st.session).1 < 0 := not_lt.mpr hrecv
  have hp := pop_datum_prefix16_truncated K rest htrunc
  have hneg : K.GNUTLS_E_RECEIVED_ILLEGAL_PARAMETER < 0 := hK.2.2.2.2.1
  simp [_gnutls13_recv_certificate_verify, hflag, hcred, hinfo, hr, hbody, hse, State.log,
    hp, hneg]

theorem recv_truncated_signature_witness :
    _gnutls13_recv_certificate_verify sampleConsts (sampleEnv [8, 4, 0, 3, 1, 2] [])
        (sampleState 1 Entity.GNUTLS_CLIENT) =
      (sampleConsts.GNUTLS_E_RECEIVED_ILLEGAL_PARAMETER,
        { session := gnutls_sign_algorithm_set_server
            (sampleState 1 Entity.GNUTLS_CLIENT).session sampleEntry.id,
          calls := (sampleState 1 Entity.GNUTLS_CLIENT).calls ++ [Call.recv_handshake,
            Call.tls_aid_to_sign_entry 8 4
              (sampleState 1 Entity.GNUTLS_CLIENT).session.pversion] }) :=
  recv_truncated_signature sampleConsts (sampleEnv [8, 4, 0, 3, 1, 2] [])
    (sampleState 1 Entity.GNUTLS_CLIENT) { verify_flags := 8 } 7 8 4 [0, 3, 1, 2] sampleEntry
    (by decide) (by decide) rfl rfl (by decide) rfl (by decide)
    (Or.inr ⟨0, 3, [1, 2], rfl, by decide⟩)

/-- C7: on the receive path, a body made of a resolvable algorithm id, a
non-empty length-prefixed signature that is fully present, and at least one
further byte gives GNUTLS_E_UNEXPECTED_PACKET_LENGTH when the peer certificate
is extracted and the verification primitive accepts the signature. The
verification primitive has been called by then. -/
theorem recv_trailing_bytes (K : Consts) (E : Env) (st : State)
    (cred : gnutls_certificate_credentials_st) (info : cert_auth_info_t)
    (d0 d1 hi lo : Byte) (sig trailing : List Byte) (se : gnutls_sign_entry_st)
    (hflag : st.session.hsk_flags &&& K.HSK_CRT_VRFY_EXPECTED ≠ 0)
    (hcred : st.session.cred = some cred) (hinfo : st.session.auth_info = some info)
    (hrecv : 0 ≤ (E._gnutls_recv_handshake st.session).1)
    (hbody : (E._gnutls_recv_handshake st.session).2 =
      d0 :: d1 :: hi :: lo :: (sig ++ trailing))
    (hse : E._gnutls_tls_aid_to_sign_entry d0 d1 st.session.pversion = some se)
    (hlen : hi.val * 256 + lo.val = sig.length)
    (hsig : sig ≠ []) (htrail : trailing ≠ [])
    (hcert : 0 ≤ (E._gnutls_get_auth_info_pcert st.session.cert_type info).1)
    (hverify : 0 ≤ E._gnutls13_handshake_verify_data
      (gnutls_sign_algorithm_set_server st.session se.id)
      (cred.verify_flags ||| st.session.additional_verify_flags)
      (E._gnutls_get_auth_info_pcert st.session.cert_type info).2 srv_ctx sig se) :
    _gnutls13_recv_certificate_verify K E st =
      (K.GNUTLS_E_UNEXPECTED_PACKET_LENGTH,
        { session := gnutls_sign_algorithm_set_server st.session se.id,
          calls := st.calls ++ [Call.recv_handshake,
            Call.tls_aid_to_sign_entry d0 d1 st.session.pversion,
            Call.get_auth_info_pcert st.session.cert_type info,
            Call.handshake_verify_data
              (cred.verify_flags ||| st.session.additional_verify_flags)
              (E._gnutls_get_auth_info_pcert st.session.cert_type info).2 srv_ctx sig se] }) := by
  have hr : ¬ (E._gnutls_recv_handshake st.session).1 < 0 := not_lt.mpr hrecv
  have hc : ¬ (E._gnutls_get_auth_info_pcert st.session.cert_type info).1 < 0 :=
    not_lt.mpr hcert
  have hv := not_lt.mpr hverify
  have hp := pop_datum_prefix16_append K hi lo sig trailing hlen
  have hs : sig.length ≠ 0 := fun h => hsig (List.length_eq_zero.mp h)
  have ht : 0 < trailing.length := List.length_pos.mpr htrail
  simp [_gnutls13_recv_certificate_verify, hflag, hcred, hinfo, hr, hbody, hse, State.log,
    hp, hs, hc, hv, ht, set_server_fields]

theorem recv_trailing_bytes_witness :
    _gnutls13_recv_certificate_verify sampleConsts (sampleEnv [8, 4, 0, 3, 1, 2, 3, 9] [])
        (sampleState 1 Entity.GNUTLS_CLIENT) =
      (sampleConsts.GNUTLS_E_UNEXPECTED_PACKET_LENGTH,
        { session := gnutls_sign_algorithm_set_server
            (sampleState 1 Entity.GNUTLS_CLIENT).session sampleEntry.id,
          calls := [Call.recv_handshake, Call.tls_aid_to_sign_entry 8 4 5,
            Call.get_auth_info_pcert 1 7,
            Call.handshake_verify_data 12 11 srv_ctx [1, 2, 3] sampleEntry] }) :=
  recv_trailing_bytes sampleConsts (sampleEnv [8, 4, 0, 3, 1, 2, 3, 9] [])
    (sampleState 1 Entity.GNUTLS_CLIENT) { verify_flags := 8 } 7 8 4 0 3 [1, 2, 3] [9]
    sampleEntry (by decide) rfl rfl (by decide) rfl (by decide) (by decide) (by decide)
    (by decide) (by decide) (by decide)

/-- With the flag set, the receive function either fails with a negative code
(and the accepting conditions do not hold) or returns 0 (and they hold). -/
theorem recv_cases (K : Consts) (E : Env) (st : State) (hK : K.Negative)
    (hflag : st.session.hsk_flags &&& K.HSK_CRT_VRFY_EXPECTED ≠ 0) :
    ((_gnutls13_recv_certificate_verify K E st).1 < 0 ∧ ¬ recvAccepts K E st) ∨
    ((_gnutls13_recv_certificate_verify K E st).1 = 0 ∧ recvAccepts K E st) := by
  obtain ⟨n1, n2, n3, n4, n5, -⟩ := hK
  rcases hcred : st.session.cred with _ | cred
  · left
    refine ⟨by simpa [_gnutls13_recv_certificate_verify, hflag, hcred] using n1, ?_⟩
    rintro ⟨cred, info, d0, d1, hi, lo, sig, se, h1, -⟩
    simp [hcred] at h1
  rcases hinfo : st.session.auth_info with _ | info
  · left
    refine ⟨by simpa [_gnutls13_recv_certificate_verify, hflag, hcred, hinfo] using n2, ?_⟩
    rintro ⟨cred, info, d0, d1, hi, lo, sig, se, -, h2, -⟩
    simp [hinfo] at h2
  by_cases hr : (E._gnutls_recv_handshake st.session).1 < 0
  · left
    refine ⟨by simp [_gnutls13_recv_certificate_verify, hflag, hcred, hinfo, hr], ?_⟩
    rintro ⟨cred, info, d0, d1, hi, lo, sig, se, -, -, h3, -⟩
    omega
  rcases hb : (E._gnutls_recv_handshake st.session).2 with _ | ⟨d0, _ | ⟨d1, rest⟩⟩
  · left
    refine ⟨by simpa [_gnutls13_recv_certificate_verify, hflag, hcred, hinfo, hr, hb]
      using n3, ?_⟩
    rintro ⟨cred, info, d0, d1, hi, lo, sig, se, -, -, -, h4, -⟩
    simp [hb] at h4
  · left
    refine ⟨by simpa [_gnutls13_recv_certificate_verify, hflag, hcred, hinfo, hr, hb]
      using n3, ?_⟩
    rintro ⟨cred, info, d0, d1, hi, lo, sig, se, -, -, -, h4, -⟩
    simp [hb] at h4
  rcases hse : E._gnutls_tls_aid_to_sign_entry d0 d1 st.session.pversion with _ | se
  · left
    refine ⟨by simpa [_gnutls13_recv_certificate_verify, hflag, hcred, hinfo, hr, hb, hse]
      using n4, ?_⟩
    rintro ⟨cred, info, e0, e1, hi, lo, sig, se, -, -, -, h4, h5, -⟩
    rw [hb] at h4
    injection h4 with h40 h4
    injection h4 with h41 h4
    subst h40 h41
    simp [hse] at h5
  have hp1 : rest.length < 2 ∨ 2 ≤ rest.length := by omega
  rcases hp1 with hshort | hlong
  · left
    have hp := pop_datum_prefix16_truncated K rest (Or.inl hshort)
    refine ⟨by simp [_gnutls13_recv_certificate_verify, hflag, hcred, hinfo, hr, hb, hse,
      hp, n5], ?_⟩
    rintro ⟨cred, info, e0, e1, hi, lo, sig, se, -, -, -, h4, -⟩
    rw [hb] at h4
    injection h4 with h40 h4
    injection h4 with h41 h4
    subst h4
    simp only [List.length_cons] at hshort
    omega
  rcases rest with _ | ⟨hi, _ | ⟨lo, tail⟩⟩
  · simp at hlong
  · simp at hlong
  clear hlong
  by_cases hsz : hi.val * 256 + lo.val ≤ tail.length
  swap
  · left
    have hp := pop_datum_prefix16_truncated K (hi :: lo :: tail)
      (Or.inr ⟨hi, lo, tail, rfl, by omega⟩)
    refine ⟨by simp [_gnutls13_recv_certificate_verify, hflag, hcred, hinfo, hr, hb, hse,
      hp, n5], ?_⟩
    rintro ⟨cred, info, e0, e1, f0, f1, sig, se, -, -, -, h4, -, h6, -⟩
    rw [hb] at h4
    injection h4 with h40 h4
    injection h4 with h41 h4
    injection h4 with h42 h4
    injection h4 with h43 h4
    subst h42 h43 h4
    omega
  obtain ⟨sigd, tr, hp, hsl, htail⟩ : ∃ sigd tr : List Byte,
      _gnutls_buffer_pop_datum_prefix16 K (hi :: lo :: tail) = (0, tr, sigd) ∧
      sigd.length = hi.val * 256 + lo.val ∧ tail = sigd ++ tr :=
    ⟨tail.take (hi.val * 256 + lo.val), tail.drop (hi.val * 256 + lo.val),
      by simp [_gnutls_buffer_pop_datum_prefix16, _gnutls_read_uint16, hsz],
      by rw [List.length_take]; omega, (List.take_append_drop _ _).symm⟩
  have htlen : tail.length = sigd.length + tr.length := by rw [htail, List.length_append]
  clear hsz
  by_cases hz : sigd = []
  · left
    refine ⟨by simpa [_gnutls13_recv_certificate_verify, hflag, hcred, hinfo, hr, hb, hse,
      hp, hz] using n5, ?_⟩
    rintro ⟨cred, info, e0, e1, f0, f1, sig, se, -, -, -, h4, -, h6, h7, -⟩
    rw [hb] at h4
    injection h4 with h40 h4
    injection h4 with h41 h4
    injection h4 with h42 h4
    injection h4 with h43 h4
    subst h42 h43 h4
    rw [hz] at hsl
    simp only [List.length_nil] at hsl
    omega
  by_cases hc : (E._gnutls_get_auth_info_pcert st.session.cert_type info).1 < 0
  · left
    refine ⟨by simp [_gnutls13_recv_certificate_verify, hflag, hcred, hinfo, hr, hb, hse,
      hp, hz, hc, set_server_fields], ?_⟩
    rintro ⟨cred, info2, e0, e1, f0, f1, sig, se, -, h2, -, -, -, -, -, h8, -⟩
    rw [hinfo] at h2
    injection h2 with h2
    subst h2
    omega
  have hwhole : ∀ sig : List Byte, hi.val * 256 + lo.val = sig.length → tail = sig →
      tr = [] ∧ sigd = sig := by
    intro sig h6 h4
    have htr : tr = [] := by
      apply List.length_eq_zero.mp
      rw [← h4] at h6
      omega
    rw [htr, List.append_nil] at htail
    exact ⟨htr, by rw [← htail, h4]⟩
  by_cases hv : E._gnutls13_handshake_verify_data
      (gnutls_sign_algorithm_set_server st.session se.id)
      (cred.verify_flags ||| st.session.additional_verify_flags)
      (E._gnutls_get_auth_info_pcert st.session.cert_type info).2 srv_ctx sigd se < 0
  · left
    refine ⟨by simp [_gnutls13_recv_certificate_verify, hflag, hcred, hinfo, hr, hb, hse,
      hp, hz, hc, hv, set_server_fields], ?_⟩
    rintro ⟨cred2, info2, e0, e1, f0, f1, sig, se2, h1, h2, -, h4, h5, h6, -, -, -, h10⟩
    rw [hcred] at h1
    rw [hinfo] at h2
    rw [hb] at h4
    injection h1 with h1
    injection h2 with h2
    injection h4 with h40 h4
    injection h4 with h41 h4
    injection h4 with h42 h4
    injection h4 with h43 h4
    subst h1 h2 h40 h41 h42 h43
    rw [hse] at h5
    injection h5 with h5
    subst h5
    obtain ⟨-, hsd⟩ := hwhole sig h6 h4
    subst hsd
    omega
  by_cases ht : tr = []
  swap
  · left
    refine ⟨by simpa [_gnutls13_recv_certificate_verify, hflag, hcred, hinfo, hr, hb, hse,
      hp, hz, hc, hv, ht, set_server_fields, List.length_pos] using n3, ?_⟩
    rintro ⟨cred2, info2, e0, e1, f0, f1, sig, se2, -, -, -, h4, -, h6, -⟩
    rw [hb] at h4
    injection h4 with h40 h4
    injection h4 with h41 h4
    injection h4 with h42 h4
    injection h4 with h43 h4
    subst h42 h43
    exact ht (hwhole sig h6 h4).1
  · right
    subst ht
    rw [List.append_nil] at htail
    subst htail
    have hval : _gnutls13_recv_certificate_verify K E st =
        (0, { session := gnutls_sign_algorithm_set_server st.session se.id,
              calls := st.calls ++ [Call.recv_handshake,
                Call.tls_aid_to_sign_entry d0 d1 st.session.pversion,
                Call.get_auth_info_pcert st.session.cert_type info,
                Call.handshake_verify_data
                  (cred.verify_flags ||| st.session.additional_verify_flags)
                  (E._gnutls_get_auth_info_pcert st.session.cert_type info).2
                  srv_ctx tail se] }) := by
      simp [_gnutls13_recv_certificate_verify, hflag, hcred, hinfo, hr, hb, hse,
        hp, hz, hc, hv, set_server_fields, State.log]
    refine ⟨by rw [hval], cred, info, d0, d1, hi, lo, tail, se, hcred, hinfo, not_lt.mp hr, hb,
      hse, hsl.symm, ?_, not_lt.mp hc, by rw [hval], not_lt.mp hv⟩
    have : tail.length ≠ 0 := fun h => hz (List.length_eq_zero.mp h)
    omega

/-- C1: for a session with HSK_CRT_VRFY_EXPECTED set, the receive function
returns 0 if and only if the credentials and the auth info are present, the
handshake message was received, its body is a two-byte algorithm id that
resolves for the negotiated version, then a big-endian 16-bit length L with
L at least 1, then exactly L signature bytes and nothing else, the peer
certificate was extracted, and the verification primitive was called on those
signature bytes and returned a non-negative code (the conditions are spelled
out in `recvAccepts`). In every other case the result is negative, given that
the error constants are negative. -/
theorem recv_returns_zero_iff (K : Consts) (E : Env) (st : State) (hK : K.Negative)
    (hflag : st.session.hsk_flags &&& K.HSK_CRT_VRFY_EXPECTED ≠ 0) :
    ((_gnutls13_recv_certificate_verify K E st).1 = 0 ↔ recvAccepts K E st) ∧
    ((_gnutls13_recv_certificate_verify K E st).1 ≠ 0 →
      (_gnutls13_recv_certificate_verify K E st).1 < 0) := by
  rcases recv_cases K E st hK hflag with ⟨hneg, hno⟩ | ⟨hz, hyes⟩
  · exact ⟨⟨fun h0 => absurd h0 (ne_of_lt hneg), fun hA => absurd hA hno⟩, fun _ => hneg⟩
  · exact ⟨⟨fun _ => hyes, fun _ => hz⟩, fun hne => absurd hz hne⟩

theorem recv_returns_zero_iff_witness :
    (_gnutls13_recv_certificate_verify sampleConsts (sampleEnv [8, 4, 0, 3, 1, 2, 3] [])
        (sampleState 1 Entity.GNUTLS_CLIENT)).1 = 0 ∧
    recvAccepts sampleConsts (sampleEnv [8, 4, 0, 3, 1, 2, 3] [])
      (sampleState 1 Entity.GNUTLS_CLIENT) ∧
    (_gnutls13_recv_certificate_verify sampleConsts (sampleEnv [8, 4, 0, 3, 1, 2, 4] [])
        (sampleState 1 Entity.GNUTLS_CLIENT)).1 < 0 :=
  ⟨by decide,
   (recv_returns_zero_iff sampleConsts (sampleEnv [8, 4, 0, 3, 1, 2, 3] [])
      (sampleState 1 Entity.GNUTLS_CLIENT) (by decide) (by decide)).1.mp (by decide),
   (recv_returns_zero_iff sampleConsts (sampleEnv [8, 4, 0, 3, 1, 2, 4] [])
      (sampleState 1 Entity.GNUTLS_CLIENT) (by decide) (by decide)).2 (by decide)⟩

/-- The receive function on a well-framed body whose signature verifies: it
returns 0 after the handshake read, the registry lookup, the peer certificate
extraction and one verification call on the signature bytes. -/
theorem recv_exact_body (K : Consts) (E : Env) (st : State)
    (cred : gnutls_certificate_credentials_st) (info : cert_auth_info_t)
    (d0 d1 hi lo : Byte) (sig : List Byte) (se : gnutls_sign_entry_st)
    (hflag : st.session.hsk_flags &&& K.HSK_CRT_VRFY_EXPECTED ≠ 0)
    (hcred : st.session.cred = some cred) (hinfo : st.session.auth_info = some info)
    (hrecv : 0 ≤ (E._gnutls_recv_handshake st.session).1)
    (hbody : (E._gnutls_recv_handshake st.session).2 = d0 :: d1 :: hi :: lo :: sig)
    (hse : E._gnutls_tls_aid_to_sign_entry d0 d1 st.session.pversion = some se)
    (hlen : hi.val * 256 + lo.val = sig.length)
    (hsig : sig ≠ [])
    (hcert : 0 ≤ (E._gnutls_get_auth_info_pcert st.session.cert_type info).1)
    (hverify : 0 ≤ E._gnutls13_handshake_verify_data
      (gnutls_sign_algorithm_set_server st.session se.id)
      (cred.verify_flags ||| st.session.additional_verify_flags)
      (E._gnutls_get_auth_info_pcert st.session.cert_type info).2 srv_ctx sig se) :
    _gnutls13_recv_certificate_verify K E st =
      (0,
        { session := gnutls_sign_algorithm_set_server st.session se.id,
          calls := st.calls ++ [Call.recv_handshake,
            Call.tls_aid_to_sign_entry d0 d1 st.session.pversion,
            Call.get_auth_info_pcert st.session.cert_type info,
            Call.handshake_verify_data
              (cred.verify_flags ||| st.session.additional_verify_flags)
              (E._gnutls_get_auth_info_pcert st.session.cert_type info).2 srv_ctx sig se] }) := by
  have hr : ¬ (E._gnutls_recv_handshake st.session).1 < 0 := not_lt.mpr hrecv
  have hc : ¬ (E._gnutls_get_auth_info_pcert st.session.cert_type info).1 < 0 :=
    not_lt.mpr hcert
  have hv := not_lt.mpr hverify
  have hp := pop_datum_prefix16_append K hi lo sig [] hlen
  rw [List.append_nil] at hp
  simp [_gnutls13_recv_certificate_verify, hflag, hcred, hinfo, hr, hbody, hse, State.log,
    hp, hsig, hc, hv, set_server_fields]

/-! ## The send path: theorems -/

/-- The two bytes written for a length below 65536 read back as that length. -/
theorem read_write_uint16 (n : Nat) (hn : n ≤ 65535) :
    _gnutls_read_uint16 (byteOfNat (n / 256)) (byteOfNat n) = n := by
  simp only [_gnutls_read_uint16, byteOfNat]
  omega

/-- The send function on a first call in which a certificate is selected, an
algorithm is chosen, its entry exists and signing succeeds: the state
afterwards and the buffer handed to the handshake send primitive. -/
theorem send_first_call (K : Consts) (E : Env) (st : State)
    (rc rs : Int) (cert0 : gnutls_pcert_st) (certs : List gnutls_pcert_st)
    (pkey : gnutls_privkey_t) (algo : Nat) (se : gnutls_sign_entry_st) (sig : List Byte)
    (hsel : E._gnutls_get_selected_cert st.session = (rc, cert0 :: certs, pkey))
    (hrc : 0 ≤ rc)
    (halgo : E._gnutls_session_get_sign_algo st.session cert0 pkey = algo)
    (hknown : algo ≠ K.GNUTLS_SIGN_UNKNOWN)
    (hse : E._gnutls_sign_to_entry algo = some se)
    (hsign : E._gnutls13_handshake_sign_data
      (if st.session.entity = Entity.GNUTLS_SERVER then
        gnutls_sign_algorithm_set_server st.session algo
       else gnutls_sign_algorithm_set_client st.session algo)
      cert0 pkey srv_ctx (some se) = (rs, sig))
    (hrs : 0 ≤ rs) :
    _gnutls13_send_certificate_verify K E st 0 =
      some (E._gnutls_send_handshake
          (if st.session.entity = Entity.GNUTLS_SERVER then
            gnutls_sign_algorithm_set_server st.session algo
           else gnutls_sign_algorithm_set_client st.session algo)
          (some (se.aid.1 :: se.aid.2 :: byteOfNat (sig.length / 256) ::
            byteOfNat sig.length :: sig)),
        { session :=
            if st.session.entity = Entity.GNUTLS_SERVER then
              gnutls_sign_algorithm_set_server st.session algo
            else gnutls_sign_algorithm_set_client st.session algo,
          calls := st.calls ++ [Call.get_selected_cert,
            Call.session_get_sign_algo cert0 pkey, Call.sign_to_entry algo,
            Call.handshake_sign_data cert0 pkey srv_ctx (some se),
            Call.send_handshake (some (se.aid.1 :: se.aid.2 ::
              byteOfNat (sig.length / 256) :: byteOfNat sig.length :: sig))] }) := by
  have h1 : ¬ rc < 0 := not_lt.mpr hrc
  have h2 : ¬ rs < 0 := not_lt.mpr hrs
  simp [_gnutls13_send_certificate_verify, hsel, h1, halgo, hknown, hse, hsign, h2, State.log,
    _gnutls_buffer_append_data, _gnutls_buffer_append_data_prefix, _gnutls_write_uint16]

/-- C10: when the entity is the server and the selected certificate list is
empty, a first call (again = 0) returns GNUTLS_E_INSUFFICIENT_CREDENTIALS,
whatever hsk_flags holds; the only outside call made is the certificate
query, so nothing is signed and nothing is handed to the handshake send
primitive, and the session is unchanged. -/
theorem send_server_no_certificate (K : Consts) (E : Env) (st : State)
    (rc : Int) (pkey : gnutls_privkey_t)
    (hentity : st.session.entity = Entity.GNUTLS_SERVER)
    (hsel : E._gnutls_get_selected_cert st.session = (rc, [], pkey))
    (hrc : 0 ≤ rc) :
    _gnutls13_send_certificate_verify K E st 0 =
      some (K.GNUTLS_E_INSUFFICIENT_CREDENTIALS,
        { session := st.session, calls := st.calls ++ [Call.get_selected_cert] }) := by
  have h1 : ¬ rc < 0 := not_lt.mpr hrc
  simp [_gnutls13_send_certificate_verify, hsel, h1, hentity, State.log]

theorem send_server_no_certificate_witness :
    _gnutls13_send_certificate_verify sampleConsts (sampleEnv [] [])
        (sampleState 2 Entity.GNUTLS_SERVER) 0 =
      some (sampleConsts.GNUTLS_E_INSUFFICIENT_CREDENTIALS,
        { session := (sampleState 2 Entity.GNUTLS_SERVER).session,
          calls := (sampleState 2 Entity.GNUTLS_SERVER).calls ++ [Call.get_selected_cert] }) :=
  send_server_no_certificate sampleConsts (sampleEnv [] []) (sampleState 2 Entity.GNUTLS_SERVER)
    0 13 rfl rfl (by decide)

/-- C9: send and receive round trip. On a first send in which a certificate is
selected, the algorithm with registry entry `se` is chosen and signing yields
`sig` of 1 to 65535 bytes, the sender signs under some context string `ctx` and
hands some buffer `body` to the handshake send primitive; and every receiver
that expects the message, has credentials and auth info, receives `body`,
resolves the wire id of `se` to `se`, extracts the peer certificate and whose
verification primitive accepts `sig` under `ctx`, returns 0, having resolved
`se`, and having called verification on exactly the bytes `sig` with the same
context string `ctx` (no bytes are left over). -/
theorem send_recv_round_trip (K : Consts) (Es : Env) (sts : State)
    (rc rs : Int) (cert0 : gnutls_pcert_st) (certs : List gnutls_pcert_st)
    (pkey : gnutls_privkey_t) (algo : Nat) (se : gnutls_sign_entry_st) (sig : List Byte)
    (hsel : Es._gnutls_get_selected_cert sts.session = (rc, cert0 :: certs, pkey))
    (hrc : 0 ≤ rc)
    (halgo : Es._gnutls_session_get_sign_algo sts.session cert0 pkey = algo)
    (hknown : algo ≠ K.GNUTLS_SIGN_UNKNOWN)
    (hse : Es._gnutls_sign_to_entry algo = some se)
    (hsign : Es._gnutls13_handshake_sign_data
      (if sts.session.entity = Entity.GNUTLS_SERVER then
        gnutls_sign_algorithm_set_server sts.session algo
       else gnutls_sign_algorithm_set_client sts.session algo)
      cert0 pkey srv_ctx (some se) = (rs, sig))
    (hrs : 0 ≤ rs) (hpos : 1 ≤ sig.length) (hlen : sig.length ≤ 65535) :
    ∃ (ret : Int) (st2 : State) (body ctx : List Byte),
      _gnutls13_send_certificate_verify K Es sts 0 = some (ret, st2) ∧
      st2.calls = sts.calls ++ [Call.get_selected_cert,
        Call.session_get_sign_algo cert0 pkey, Call.sign_to_entry algo,
        Call.handshake_sign_data cert0 pkey ctx (some se),
        Call.send_handshake (some body)] ∧
      ∀ (Er : Env) (str : State) (cred : gnutls_certificate_credentials_st)
        (info : cert_auth_info_t) (rr : Int),
        str.session.hsk_flags &&& K.HSK_CRT_VRFY_EXPECTED ≠ 0 →
        str.session.cred = some cred → str.session.auth_info = some info →
        Er._gnutls_recv_handshake str.session = (rr, body) → 0 ≤ rr →
        Er._gnutls_tls_aid_to_sign_entry se.aid.1 se.aid.2 str.session.pversion = some se →
        0 ≤ (Er._gnutls_get_auth_info_pcert str.session.cert_type info).1 →
        0 ≤ Er._gnutls13_handshake_verify_data
          (gnutls_sign_algorithm_set_server str.session se.id)
          (cred.verify_flags ||| str.session.additional_verify_flags)
          (Er._gnutls_get_auth_info_pcert str.session.cert_type info).2 ctx sig se →
        _gnutls13_recv_certificate_verify K Er str =
          (0,
            { session := gnutls_sign_algorithm_set_server str.session se.id,
              calls := str.calls ++ [Call.recv_handshake,
                Call.tls_aid_to_sign_entry se.aid.1 se.aid.2 str.session.pversion,
                Call.get_auth_info_pcert str.session.cert_type info,
                Call.handshake_verify_data
                  (cred.verify_flags ||| str.session.additional_verify_flags)
                  (Er._gnutls_get_auth_info_pcert str.session.cert_type info).2
                  ctx sig se] }) := by
  refine ⟨_, _, _, srv_ctx,
    send_first_call K Es sts rc rs cert0 certs pkey algo se sig hsel hrc halgo hknown hse
      hsign hrs, rfl, ?_⟩
  intro Er str cred info rr hflag hcred hinfo hrecv hrr hres hcert hverify
  have hsig : sig ≠ [] := by
    intro h
    rw [h] at hpos
    simp at hpos
  exact recv_exact_body K Er str cred info se.aid.1 se.aid.2 (byteOfNat (sig.length / 256))
    (byteOfNat sig.length) sig se hflag hcred hinfo (by rw [hrecv]; exact hrr)
    (by rw [hrecv]) hres (read_write_uint16 sig.length hlen) hsig hcert hverify

theorem send_recv_round_trip_witness :
    ∃ body ctx : List Byte,
      _gnutls13_recv_certificate_verify sampleConsts (sampleEnv body [])
        (sampleState 1 Entity.GNUTLS_CLIENT) =
      (0,
        { session := gnutls_sign_algorithm_set_server
            (sampleState 1 Entity.GNUTLS_CLIENT).session sampleEntry.id,
          calls := [Call.recv_handshake, Call.tls_aid_to_sign_entry 8 4 5,
            Call.get_auth_info_pcert 1 7,
            Call.handshake_verify_data 12 11 ctx [1, 2, 3] sampleEntry] }) := by
  obtain ⟨_, _, body, ctx, _, _, hall⟩ :=
    send_recv_round_trip sampleConsts (sampleEnv [] [21]) (sampleState 2 Entity.GNUTLS_SERVER)
      0 0 21 [] 13 28 sampleEntry [1, 2, 3] rfl (by decide) rfl (by decide) rfl rfl
      (by decide) (by decide) (by decide)
  exact ⟨body, ctx, hall (sampleEnv body []) (sampleState 1 Entity.GNUTLS_CLIENT)
    { verify_flags := 8 } 7 0 (by decide) rfl rfl rfl (by decide) rfl (Int.le_refl 0)
    (Int.le_refl 0)⟩

/-- C11: when the entity is the client, the selected certificate list is empty
and HSK_CRT_SENT is not set, a first call (again = 0) returns 0; the only
outside call made is the certificate query, so the signer is not invoked and
nothing is handed to the handshake send primitive, and the session (the
recorded signature algorithms included) is unchanged. -/
theorem send_client_nothing_to_prove (K : Consts) (E : Env) (st : State)
    (rc : Int) (pkey : gnutls_privkey_t)
    (hentity : st.session.entity = Entity.GNUTLS_CLIENT)
    (hsel : E._gnutls_get_selected_cert st.session = (rc, [], pkey))
    (hrc : 0 ≤ rc)
    (hflag : st.session.hsk_flags &&& K.HSK_CRT_SENT = 0) :
    _gnutls13_send_certificate_verify K E st 0 =
      some (0, { session := st.session, calls := st.calls ++ [Call.get_selected_cert] }) := by
  have h1 : ¬ rc < 0 := not_lt.mpr hrc
  simp [_gnutls13_send_certificate_verify, hsel, h1, hentity, hflag, State.log]

theorem send_client_nothing_to_prove_witness :
    _gnutls13_send_certificate_verify sampleConsts (sampleEnv [] [])
        (sampleState 1 Entity.GNUTLS_CLIENT) 0 =
      some (0, { session := (sampleState 1 Entity.GNUTLS_CLIENT).session,
                 calls := (sampleState 1 Entity.GNUTLS_CLIENT).calls
                   ++ [Call.get_selected_cert] }) :=
  send_client_nothing_to_prove sampleConsts (sampleEnv [] [])
    (sampleState 1 Entity.GNUTLS_CLIENT) 0 13 rfl rfl (by decide) (by decide)

/-- C12: when the entity is the client, the selected certificate list is empty
and HSK_CRT_SENT is set, a first call (again = 0) returns
GNUTLS_E_INTERNAL_ERROR; the only outside call made is the certificate query,
so nothing is sent. With a negative error constant this return value is not
the 0 that is returned when HSK_CRT_SENT is not set. -/
theorem send_client_certificate_sent_no_key (K : Consts) (E : Env) (st : State)
    (rc : Int) (pkey : gnutls_privkey_t)
    (hK : K.Negative)
    (hentity : st.session.entity = Entity.GNUTLS_CLIENT)
    (hsel : E._gnutls_get_selected_cert st.session = (rc, [], pkey))
    (hrc : 0 ≤ rc)
    (hflag : st.session.hsk_flags &&& K.HSK_CRT_SENT ≠ 0) :
    _gnutls13_send_certificate_verify K E st 0 =
      some (K.GNUTLS_E_INTERNAL_ERROR,
        { session := st.session, calls := st.calls ++ [Call.get_selected_cert] }) ∧
    K.GNUTLS_E_INTERNAL_ERROR ≠ 0 := by
  have h1 : ¬ rc < 0 := not_lt.mpr hrc
  refine ⟨?_, ne_of_lt hK.2.1⟩
  simp [_gnutls13_send_certificate_verify, hsel, h1, hentity, hflag, State.log]

theorem send_client_certificate_sent_no_key_witness :
    _gnutls13_send_certificate_verify sampleConsts (sampleEnv [] [])
        (sampleState 2 Entity.GNUTLS_CLIENT) 0 =
      some (sampleConsts.GNUTLS_E_INTERNAL_ERROR,
        { session := (sampleState 2 Entity.GNUTLS_CLIENT).session,
          calls := (sampleState 2 Entity.GNUTLS_CLIENT).calls
            ++ [Call.get_selected_cert] }) ∧
    sampleConsts.GNUTLS_E_INTERNAL_ERROR ≠ 0 :=
  send_client_certificate_sent_no_key sampleConsts (sampleEnv [] [])
    (sampleState 2 Entity.GNUTLS_CLIENT) 0 13 (by decide) rfl rfl (by decide) (by decide)

/-- C15: on a first call (again = 0) with a non-empty selected certificate list
for which the algorithm selection yields GNUTLS_SIGN_UNKNOWN, the result is
GNUTLS_E_INCOMPATIBLE_SIG_WITH_KEY; the session is unchanged (no algorithm is
recorded) and the outside calls made are the certificate query and the
algorithm selection only, so the signer is not invoked and nothing is sent. -/
theorem send_no_usable_algorithm (K : Consts) (E : Env) (st : State)
    (rc : Int) (cert0 : gnutls_pcert_st) (certs : List gnutls_pcert_st)
    (pkey : gnutls_privkey_t)
    (hsel : E._gnutls_get_selected_cert st.session = (rc, cert0 :: certs, pkey))
    (hrc : 0 ≤ rc)
    (halgo : E._gnutls_session_get_sign_algo st.session cert0 pkey = K.GNUTLS_SIGN_UNKNOWN) :
    _gnutls13_send_certificate_verify K E st 0 =
      some (K.GNUTLS_E_INCOMPATIBLE_SIG_WITH_KEY,
        { session := st.session,
          calls := st.calls ++ [Call.get_selected_cert,
            Call.session_get_sign_algo cert0 pkey] }) := by
  have h1 : ¬ rc < 0 := not_lt.mpr hrc
  simp [_gnutls13_send_certificate_verify, hsel, h1, halgo, State.log]

theorem send_no_usable_algorithm_witness :
    _gnutls13_send_certificate_verify sampleConsts sampleEnvNoAlgo
        (sampleState 2 Entity.GNUTLS_SERVER) 0 =
      some (sampleConsts.GNUTLS_E_INCOMPATIBLE_SIG_WITH_KEY,
        { session := (sampleState 2 Entity.GNUTLS_SERVER).session,
          calls := (sampleState 2 Entity.GNUTLS_SERVER).calls ++ [Call.get_selected_cert,
            Call.session_get_sign_algo 21 13] }) :=
  send_no_usable_algorithm sampleConsts sampleEnvNoAlgo (sampleState 2 Entity.GNUTLS_SERVER)
    0 21 [] 13 rfl (by decide) rfl

/-- The send function on a first call in which a certificate is selected and
an algorithm is chosen, but signing fails: the signer's code is returned, and
the algorithm has been recorded by then. -/
theorem send_first_call_sign_fails (K : Consts) (E : Env) (st : State)
    (rc rs : Int) (cert0 : gnutls_pcert_st) (certs : List gnutls_pcert_st)
    (pkey : gnutls_privkey_t) (algo : Nat) (sig : List Byte)
    (hsel : E._gnutls_get_selected_cert st.session = (rc, cert0 :: certs, pkey))
    (hrc : 0 ≤ rc)
    (halgo : E._gnutls_session_get_sign_algo st.session cert0 pkey = algo)
    (hknown : algo ≠ K.GNUTLS_SIGN_UNKNOWN)
    (hsign : E._gnutls13_handshake_sign_data
      (if st.session.entity = Entity.GNUTLS_SERVER then
        gnutls_sign_algorithm_set_server st.session algo
       else gnutls_sign_algorithm_set_client st.session algo)
      cert0 pkey srv_ctx (E._gnutls_sign_to_entry algo) = (rs, sig))
    (hrs : rs < 0) :
    _gnutls13_send_certificate_verify K E st 0 =
      some (rs,
        { session :=
            if st.session.entity = Entity.GNUTLS_SERVER then
              gnutls_sign_algorithm_set_server st.session algo
            else gnutls_sign_algorithm_set_client st.session algo,
          calls := st.calls ++ [Call.get_selected_cert,
            Call.session_get_sign_algo cert0 pkey, Call.sign_to_entry algo,
            Call.handshake_sign_data cert0 pkey srv_ctx (E._gnutls_sign_to_entry algo)] }) := by
  have h1 : ¬ rc < 0 := not_lt.mpr hrc
  simp [_gnutls13_send_certificate_verify, hsel, h1, halgo, hknown, hsign, hrs, State.log]

/-- C16: on a first call (again = 0) in which the algorithm `algo` is selected
for the chosen certificate (its registry entry is `se`), the function records
`algo` under the local role: the session afterwards has `algo` as the server's
signature algorithm when the entity is the server and as the client's when the
entity is the client, and the other role's recorded algorithm is the one from
before. The recording comes before signing: the signer is run on the session
that already holds `algo`, and when the signer fails (negative code `rs`) the
function returns `rs` with the algorithm recorded all the same. -/
theorem send_records_local_algorithm (K : Consts) (E : Env) (st : State)
    (rc rs : Int) (cert0 : gnutls_pcert_st) (certs : List gnutls_pcert_st)
    (pkey : gnutls_privkey_t) (algo : Nat) (se : gnutls_sign_entry_st) (sig : List Byte)
    (hsel : E._gnutls_get_selected_cert st.session = (rc, cert0 :: certs, pkey))
    (hrc : 0 ≤ rc)
    (halgo : E._gnutls_session_get_sign_algo st.session cert0 pkey = algo)
    (hknown : algo ≠ K.GNUTLS_SIGN_UNKNOWN)
    (hse : E._gnutls_sign_to_entry algo = some se)
    (hsign : E._gnutls13_handshake_sign_data
      (if st.session.entity = Entity.GNUTLS_SERVER then
        gnutls_sign_algorithm_set_server st.session algo
       else gnutls_sign_algorithm_set_client st.session algo)
      cert0 pkey srv_ctx (some se) = (rs, sig)) :
    ∃ (ret : Int) (st2 : State),
      _gnutls13_send_certificate_verify K E st 0 = some (ret, st2) ∧
      st2.session.server_sign_algo =
        (if st.session.entity = Entity.GNUTLS_SERVER then algo
         else st.session.server_sign_algo) ∧
      st2.session.client_sign_algo =
        (if st.session.entity = Entity.GNUTLS_SERVER then st.session.client_sign_algo
         else algo) ∧
      (rs < 0 → ret = rs ∧
        st2.calls = st.calls ++ [Call.get_selected_cert,
          Call.session_get_sign_algo cert0 pkey, Call.sign_to_entry algo,
          Call.handshake_sign_data cert0 pkey srv_ctx (some se)]) := by
  have hrec : ∀ s2 : Session,
      s2 = (if st.session.entity = Entity.GNUTLS_SERVER then
              gnutls_sign_algorithm_set_server st.session algo
            else gnutls_sign_algorithm_set_client st.session algo) →
      s2.server_sign_algo =
        (if st.session.entity = Entity.GNUTLS_SERVER then algo
         else st.session.server_sign_algo) ∧
      s2.client_sign_algo =
        (if st.session.entity = Entity.GNUTLS_SERVER then st.session.client_sign_algo
         else algo) := by
    intro s2 h2
    subst h2
    by_cases he : st.session.entity = Entity.GNUTLS_SERVER
    · simp [he, gnutls_sign_algorithm_set_server]
    · simp [he, gnutls_sign_algorithm_set_client]
  by_cases hrs : rs < 0
  · rw [← hse] at hsign
    have h := send_first_call_sign_fails K E st rc rs cert0 certs pkey algo sig hsel hrc
      halgo hknown hsign hrs
    rw [hse] at h
    exact ⟨_, _, h, (hrec _ rfl).1, (hrec _ rfl).2, fun _ => ⟨rfl, rfl⟩⟩
  · have h := send_first_call K E st rc rs cert0 certs pkey algo se sig hsel hrc halgo
      hknown hse hsign (not_lt.mp hrs)
    exact ⟨_, _, h, (hrec _ rfl).1, (hrec _ rfl).2, fun h0 => absurd h0 hrs⟩

theorem send_records_local_algorithm_witness :
    ∃ (ret : Int) (st2 : State),
      _gnutls13_send_certificate_verify sampleConsts sampleEnvSignFails
        (sampleState 2 Entity.GNUTLS_CLIENT) 0 = some (ret, st2) ∧
      st2.session.server_sign_algo =
        (if (sampleState 2 Entity.GNUTLS_CLIENT).session.entity = Entity.GNUTLS_SERVER then 28
         else (sampleState 2 Entity.GNUTLS_CLIENT).session.server_sign_algo) ∧
      st2.session.client_sign_algo =
        (if (sampleState 2 Entity.GNUTLS_CLIENT).session.entity = Entity.GNUTLS_SERVER then
          (sampleState 2 Entity.GNUTLS_CLIENT).session.client_sign_algo
         else 28) ∧
      ((-1 : Int) < 0 → ret = -1 ∧
        st2.calls = (sampleState 2 Entity.GNUTLS_CLIENT).calls ++ [Call.get_selected_cert,
          Call.session_get_sign_algo 21 13, Call.sign_to_entry 28,
          Call.handshake_sign_data 21 13 srv_ctx (some sampleEntry)]) :=
  send_records_local_algorithm sampleConsts sampleEnvSignFails
    (sampleState 2 Entity.GNUTLS_CLIENT) 0 (-1) 21 [] 13 28 sampleEntry [] rfl (by decide) rfl
    (by decide) rfl rfl

/-- The outside calls made by the receive function (the calls logged beyond
those of the input state): every verification call among them carries the
context string `srv_ctx` and the flags
`cred->verify_flags | additional_verify_flags`. -/
theorem recv_new_calls (K : Consts) (E : Env) (st : State) :
    ∀ c ∈ (_gnutls13_recv_certificate_verify K E st).2.calls.drop st.calls.length,
      ∀ (vf : Nat) (pc : gnutls_pcert_st) (ctx sg : gnutls_datum_t)
        (se : gnutls_sign_entry_st),
        c = Call.handshake_verify_data vf pc ctx sg se →
        ctx = srv_ctx ∧
        ∃ cred, st.session.cred = some cred ∧
          vf = cred.verify_flags ||| st.session.additional_verify_flags := by
  unfold _gnutls13_recv_certificate_verify
  simp only []
  repeat' split
  all_goals simp [State.log, set_server_fields, *]
  all_goals
    intro vf pc ctx sg se h1 _ h3 _ _
    exact ⟨h3.symm, h1.symm⟩

/-- The outside calls made by the send function (the calls logged beyond those
of the input state): every call of the signer among them carries the context
string `srv_ctx`. -/
theorem send_new_calls (K : Consts) (E : Env) (st : State) (again : Nat)
    (ret : Int) (st2 : State)
    (hsend : _gnutls13_send_certificate_verify K E st again = some (ret, st2)) :
    ∀ c ∈ st2.calls.drop st.calls.length,
      ∀ (cert : gnutls_pcert_st) (pkey : gnutls_privkey_t) (ctx : gnutls_datum_t)
        (se : Option gnutls_sign_entry_st),
        c = Call.handshake_sign_data cert pkey ctx se → ctx = srv_ctx := by
  unfold _gnutls13_send_certificate_verify at hsend
  simp only [] at hsend
  repeat' split at hsend
  all_goals simp at hsend
  all_goals
    obtain ⟨-, rfl⟩ := hsend
    simp [State.log]
  all_goals
    intro _ _ ctx _ _ _ h _
    exact h.symm

/-- C13 (as amended): a call with again different from 0 makes exactly one
outside call, the handshake send primitive with a NULL buffer, and returns
that primitive's result; the certificate is not queried, no algorithm is
selected or recorded (the session is unchanged) and the signer is not
invoked. No buffer is passed by this function. -/
theorem send_again_resumes (K : Consts) (E : Env) (st : State) (again : Nat)
    (hagain : again ≠ 0) :
    _gnutls13_send_certificate_verify K E st again =
      some (E._gnutls_send_handshake st.session none,
        { session := st.session, calls := st.calls ++ [Call.send_handshake none] }) := by
  simp [_gnutls13_send_certificate_verify, hagain, State.log]

theorem send_again_resumes_witness :
    _gnutls13_send_certificate_verify sampleConsts (sampleEnv [] [21]) sampleStateSent 1 =
      some ((sampleEnv [] [21])._gnutls_send_handshake sampleStateSent.session none,
        { session := sampleStateSent.session,
          calls := sampleStateSent.calls ++ [Call.send_handshake none] }) :=
  send_again_resumes sampleConsts (sampleEnv [] [21]) sampleStateSent 1 (by decide)

/-- C13 as stated fails: after a first call that built the body
08 04 00 03 01 02 03 and handed it to the handshake send primitive, the call
with again = 1 gives the primitive a NULL buffer, not that body. -/
theorem send_again_hands_no_buffer :
    _gnutls13_send_certificate_verify sampleConsts (sampleEnv [] [21])
        (sampleState 2 Entity.GNUTLS_SERVER) 0 = some (0, sampleStateSent) ∧
    sampleStateSent.calls.getLast? =
      some (Call.send_handshake (some [8, 4, 0, 3, 1, 2, 3])) ∧
    _gnutls13_send_certificate_verify sampleConsts (sampleEnv [] [21]) sampleStateSent 1 =
      some (0, { session := sampleStateSent.session,
                 calls := sampleStateSent.calls ++ [Call.send_handshake none] }) ∧
    Call.send_handshake (some [8, 4, 0, 3, 1, 2, 3]) ∉ [Call.send_handshake none] := by
  decide

/-- C14 (as amended): there is one context string. Every call of the signer
made by the send function and every call of the verification primitive made
by the receive function carries `srv_ctx`, whatever the entity of either
session is; so the verifier's context string equals the signer's. -/
theorem context_string_is_srv_ctx (K : Consts) (Es Er : Env) (sts str : State)
    (again : Nat) (ret : Int) (st2 : State)
    (cert : gnutls_pcert_st) (pkey : gnutls_privkey_t) (sctx : gnutls_datum_t)
    (sse : Option gnutls_sign_entry_st)
    (vf : Nat) (pc : gnutls_pcert_st) (vctx sg : gnutls_datum_t) (vse : gnutls_sign_entry_st)
    (hsend : _gnutls13_send_certificate_verify K Es sts again = some (ret, st2))
    (hsign : Call.handshake_sign_data cert pkey sctx sse ∈ st2.calls.drop sts.calls.length)
    (hverify : Call.handshake_verify_data vf pc vctx sg vse ∈
      (_gnutls13_recv_certificate_verify K Er str).2.calls.drop str.calls.length) :
    sctx = srv_ctx ∧ vctx = srv_ctx ∧ vctx = sctx := by
  have h1 := send_new_calls K Es sts again ret st2 hsend _ hsign cert pkey sctx sse rfl
  have h2 := (recv_new_calls K Er str _ hverify vf pc vctx sg vse rfl).1
  exact ⟨h1, h2, by rw [h1, h2]⟩

theorem context_string_is_srv_ctx_witness :
    Call.handshake_sign_data 21 13 srv_ctx (some sampleEntry) ∈
      [Call.get_selected_cert, Call.session_get_sign_algo 21 13,
        Call.sign_to_entry 28, Call.handshake_sign_data 21 13 srv_ctx (some sampleEntry),
        Call.send_handshake (some [8, 4, 0, 3, 1, 2, 3])] ∧
    Call.handshake_verify_data 12 11 srv_ctx [1, 2, 3] sampleEntry ∈
      (_gnutls13_recv_certificate_verify sampleConsts (sampleEnv [8, 4, 0, 3, 1, 2, 3] [])
        sampleServerState).2.calls ∧
    (srv_ctx = srv_ctx ∧ srv_ctx = srv_ctx ∧ srv_ctx = srv_ctx) :=
  ⟨by decide, by decide,
   context_string_is_srv_ctx sampleConsts (sampleEnv [] [21])
    (sampleEnv [8, 4, 0, 3, 1, 2, 3] []) (sampleState 2 Entity.GNUTLS_CLIENT)
    sampleServerState 0 0
    { session := gnutls_sign_algorithm_set_client (sampleSession 2 Entity.GNUTLS_CLIENT) 28,
      calls := [Call.get_selected_cert, Call.session_get_sign_algo 21 13,
        Call.sign_to_entry 28, Call.handshake_sign_data 21 13 srv_ctx (some sampleEntry),
        Call.send_handshake (some [8, 4, 0, 3, 1, 2, 3])] }
    21 13 srv_ctx (some sampleEntry) 12 11 srv_ctx [1, 2, 3] sampleEntry
    (by decide) (by decide) (by decide)⟩

/-- C14 as stated fails: the context string the send function passes to the
signer when the entity is the client is the one it passes when the entity is
the server, namely `srv_ctx`. -/
theorem context_string_same_for_both_roles :
    (_gnutls13_send_certificate_verify sampleConsts (sampleEnv [] [21])
        (sampleState 2 Entity.GNUTLS_CLIENT) 0).map (fun r => signContexts r.2.calls)
      = some [srv_ctx] ∧
    (_gnutls13_send_certificate_verify sampleConsts (sampleEnv [] [21])
        (sampleState 2 Entity.GNUTLS_SERVER) 0).map (fun r => signContexts r.2.calls)
      = (_gnutls13_send_certificate_verify sampleConsts (sampleEnv [] [21])
        (sampleState 2 Entity.GNUTLS_CLIENT) 0).map (fun r => signContexts r.2.calls) := by
  decide

/-- C17 fails on the code when the local entity is the server: receiving a
well-formed CertificateVerify with algorithm 28 returns 0, overwrites the
server's recorded algorithm (9 before, 28 after) and leaves the client's
recorded algorithm as it was (0). When the local entity is the client the
algorithm is recorded as the server's, as the claim says. -/
theorem recv_records_server_algorithm_on_server :
    sampleServerState.session.entity = Entity.GNUTLS_SERVER ∧
    sampleServerState.session.server_sign_algo = 9 ∧
    sampleServerState.session.client_sign_algo = 0 ∧
    (_gnutls13_recv_certificate_verify sampleConsts (sampleEnv [8, 4, 0, 3, 1, 2, 3] [])
      sampleServerState).1 = 0 ∧
    (_gnutls13_recv_certificate_verify sampleConsts (sampleEnv [8, 4, 0, 3, 1, 2, 3] [])
      sampleServerState).2.session.server_sign_algo = 28 ∧
    (_gnutls13_recv_certificate_verify sampleConsts (sampleEnv [8, 4, 0, 3, 1, 2, 3] [])
      sampleServerState).2.session.client_sign_algo = 0 ∧
    (_gnutls13_recv_certificate_verify sampleConsts (sampleEnv [8, 4, 0, 3, 1, 2, 3] [])
      (sampleState 1 Entity.GNUTLS_CLIENT)).2.session.server_sign_algo = 28 := by
  decide

/-- C18: every call of the verification primitive made by the receive function
is given the flags `cred->verify_flags | additional_verify_flags`: bit by bit,
a flag bit is set in what is passed exactly when it is set in the credentials'
verify_flags or in the session's additional_verify_flags. -/
theorem recv_verify_flags (K : Consts) (E : Env) (st : State)
    (vf : Nat) (pc : gnutls_pcert_st) (ctx sg : gnutls_datum_t) (se : gnutls_sign_entry_st)
    (hcall : Call.handshake_verify_data vf pc ctx sg se ∈
      (_gnutls13_recv_certificate_verify K E st).2.calls.drop st.calls.length) :
    ∃ cred, st.session.cred = some cred ∧
      vf = cred.verify_flags ||| st.session.additional_verify_flags ∧
      ∀ i : Nat, vf.testBit i =
        (cred.verify_flags.testBit i || st.session.additional_verify_flags.testBit i) := by
  obtain ⟨-, cred, hcred, hvf⟩ := recv_new_calls K E st _ hcall vf pc ctx sg se rfl
  exact ⟨cred, hcred, hvf, fun i => by rw [hvf, Nat.testBit_or]⟩

theorem recv_verify_flags_witness :
    ∃ cred, (sampleState 1 Entity.GNUTLS_CLIENT).session.cred = some cred ∧
      12 = cred.verify_flags |||
        (sampleState 1 Entity.GNUTLS_CLIENT).session.additional_verify_flags ∧
      ∀ i : Nat, (12 : Nat).testBit i =
        (cred.verify_flags.testBit i ||
          (sampleState 1 Entity.GNUTLS_CLIENT).session.additional_verify_flags.testBit i) :=
  recv_verify_flags sampleConsts (sampleEnv [8, 4, 0, 3, 1, 2, 3] [])
    (sampleState 1 Entity.GNUTLS_CLIENT) 12 11 srv_ctx [1, 2, 3] sampleEntry (by decide)

/-! ## SRP: theorems -/

/-- Modular subtraction undoes modular addition, up to the modulus. -/
theorem subm_addm_modEq (t w n : Nat) (hn : 0 < n) :
    Nat.ModEq n (gcry_mpi_subm (gcry_mpi_addm (t % n) (w % n) n) (t % n) n) w := by
  unfold gcry_mpi_subm gcry_mpi_addm
  have hn0 : (n : Int) ≠ 0 := by exact_mod_cast hn.ne'
  rw [← Int.natCast_modEq_iff, Int.toNat_of_nonneg (Int.emod_nonneg _ hn0)]
  have hT : (((t % n : Nat) : Int)) ≡ (t : Int) [ZMOD n] := by
    push_cast
    exact Int.mod_modEq _ _
  have hW : (((w % n : Nat) : Int)) ≡ (w : Int) [ZMOD n] := by
    push_cast
    exact Int.mod_modEq _ _
  have hB : ((((t % n + w % n) % n : Nat) : Int)) ≡ (t : Int) + w [ZMOD n] := by
    have h0 : ((((t % n + w % n) % n : Nat) : Int)) ≡
        ((t % n : Nat) : Int) + ((w % n : Nat) : Int) [ZMOD n] := by
      push_cast
      exact Int.mod_modEq _ _
    exact h0.trans (hT.add hW)
  calc ((((t % n + w % n) % n : Nat) : Int) - ((t % n : Nat) : Int)) % (n : Int)
      ≡ (((t % n + w % n) % n : Nat) : Int) - ((t % n : Nat) : Int) [ZMOD n] :=
        Int.mod_modEq _ _
    _ ≡ ((t : Int) + w) - t [ZMOD n] := hB.sub hT
    _ = (w : Int) := by ring

/-- The value `_gnutls_calc_srp_A` returns is g^a mod n. -/
theorem calc_srp_A_formula (a g n : Nat) :
    _gnutls_calc_srp_A a g n = (g ^ a % n, a) := by
  simp [_gnutls_calc_srp_A, gcry_mpi_powm]

/-- The value `_gnutls_calc_srp_B` returns is (v + g^b) mod n. -/
theorem calc_srp_B_formula (b g n v : Nat) :
    _gnutls_calc_srp_B b g n v = ((v + g ^ b) % n, b) := by
  simp [_gnutls_calc_srp_B, gcry_mpi_powm, gcry_mpi_addm, Nat.add_mod]

/-- The server's key is (A * v^u)^b mod n. -/
theorem calc_srp_S1_formula (A b u v n : Nat) :
    _gnutls_calc_srp_S1 A b u v n = (A * v ^ u) ^ b % n := by
  simp only [_gnutls_calc_srp_S1, gcry_mpi_powm, gcry_mpi_mulm]
  have h : Nat.ModEq n (A * (v ^ u % n) % n) (A * v ^ u) :=
    (Nat.mod_modEq _ _).trans ((Nat.ModEq.refl A).mul (Nat.mod_modEq _ _))
  exact h.pow b

/-- The client's key is (B - g^x)^(a + u*x) mod n, the difference being taken
modulo n as the representative between 0 and n - 1. -/
theorem calc_srp_S2_formula (B g x a u n : Nat) :
    _gnutls_calc_srp_S2 B g x a u n =
      ((((B : Int) - (g : Int) ^ x) % (n : Int)).toNat) ^ (a + u * x) % n := by
  simp only [_gnutls_calc_srp_S2, gcry_mpi_powm, gcry_mpi_subm, gcry_mpi_mul, gcry_mpi_add]
  have h : ((B : Int) - ((g ^ x % n : Nat) : Int)) % (n : Int) =
      ((B : Int) - (g : Int) ^ x) % (n : Int) := by
    have h1 : (((g ^ x % n : Nat) : Int)) ≡ (g : Int) ^ x [ZMOD n] := by
      push_cast
      exact Int.mod_modEq _ _
    exact (Int.ModEq.refl (B : Int)).sub h1
  rw [h]

/-- The two keys agree when A and B are computed from the same g, n and
v = g^x mod n. -/
theorem srp_keys_agree (g x a b u n : Nat) (hn : 0 < n) :
    _gnutls_calc_srp_S1 (_gnutls_calc_srp_A a g n).1 b u (gcry_mpi_powm g x n) n =
    _gnutls_calc_srp_S2 (_gnutls_calc_srp_B b g n (gcry_mpi_powm g x n)).1 g x a u n := by
  simp only [_gnutls_calc_srp_S1, _gnutls_calc_srp_S2, _gnutls_calc_srp_A, _gnutls_calc_srp_B,
    gcry_mpi_mul, gcry_mpi_add]
  have hY := subm_addm_modEq (g ^ x) (g ^ b) n hn
  have hX : Nat.ModEq n (gcry_mpi_mulm (gcry_mpi_powm g a n)
      (gcry_mpi_powm (gcry_mpi_powm g x n) u n) n) (g ^ a * (g ^ x) ^ u) := by
    unfold gcry_mpi_mulm gcry_mpi_powm
    have h1 : Nat.ModEq n (g ^ a % n) (g ^ a) := Nat.mod_modEq _ _
    have h2 : Nat.ModEq n ((g ^ x % n) ^ u % n) ((g ^ x) ^ u) :=
      (Nat.mod_modEq _ _).trans ((Nat.mod_modEq _ _).pow u)
    exact (Nat.mod_modEq _ _).trans (h1.mul h2)
  have hL := hX.pow b
  have hR := hY.pow (a + u * x)
  have hexp : (g ^ a * (g ^ x) ^ u) ^ b = (g ^ b) ^ (a + u * x) := by
    rw [← pow_mul, ← pow_add, ← pow_mul, ← pow_mul]
    congr 1
    ring
  rw [hexp] at hL
  exact hL.trans hR.symm

/-- C19: SRP key agreement. For all natural numbers g, x, a, b, u and every
modulus n > 0, with v = g^x mod n:
`_gnutls_calc_srp_A` returns A = g^a mod n (and the random a);
`_gnutls_calc_srp_B` returns B = (v + g^b) mod n (and the random b);
the server's key `_gnutls_calc_srp_S1 (A, b, u, v, n)` is (A * v^u)^b mod n;
the client's key `_gnutls_calc_srp_S2 (B, g, x, a, u, n)` is
(B - g^x)^(a + u*x) mod n, the subtraction being modular; and the two keys are
equal, both being g^(b*(a + u*x)) mod n. -/
theorem srp_shared_key_agreement (g x a b u n : Nat) (hn : 0 < n) :
    _gnutls_calc_srp_A a g n = (g ^ a % n, a) ∧
    _gnutls_calc_srp_B b g n (g ^ x % n) = ((g ^ x % n + g ^ b) % n, b) ∧
    _gnutls_calc_srp_S1 (g ^ a % n) b u (g ^ x % n) n =
      (g ^ a % n * (g ^ x % n) ^ u) ^ b % n ∧
    _gnutls_calc_srp_S2 ((g ^ x % n + g ^ b) % n) g x a u n =
      ((((((g ^ x % n + g ^ b) % n : Nat) : Int) - (g : Int) ^ x) % (n : Int)).toNat)
        ^ (a + u * x) % n ∧
    _gnutls_calc_srp_S1 (_gnutls_calc_srp_A a g n).1 b u (g ^ x % n) n =
      _gnutls_calc_srp_S2 (_gnutls_calc_srp_B b g n (g ^ x % n)).1 g x a u n ∧
    _gnutls_calc_srp_S1 (_gnutls_calc_srp_A a g n).1 b u (g ^ x % n) n =
      g ^ (b * (a + u * x)) % n := by
  have hagree := srp_keys_agree g x a b u n hn
  have hv : gcry_mpi_powm g x n = g ^ x % n := rfl
  rw [hv] at hagree
  refine ⟨calc_srp_A_formula a g n, calc_srp_B_formula b g n _, calc_srp_S1_formula _ b u _ n,
    calc_srp_S2_formula _ g x a u n, hagree, ?_⟩
  rw [calc_srp_A_formula, calc_srp_S1_formula]
  have h : Nat.ModEq n (g ^ a % n * (g ^ x % n) ^ u) (g ^ a * (g ^ x) ^ u) :=
    (Nat.mod_modEq _ _).mul ((Nat.mod_modEq _ _).pow u)
  have hexp : (g ^ a * (g ^ x) ^ u) ^ b = g ^ (b * (a + u * x)) := by
    rw [← pow_mul, ← pow_add, ← pow_mul]
    congr 1
    ring
  have h2 := h.pow b
  rw [hexp] at h2
  exact h2

theorem srp_shared_key_agreement_witness :
    (0 < 23) ∧
    _gnutls_calc_srp_A 6 5 23 = (8, 6) ∧
    _gnutls_calc_srp_B 15 5 23 4 = (0, 15) ∧
    _gnutls_calc_srp_S1 8 15 3 4 23 = 8 ∧
    _gnutls_calc_srp_S2 0 5 4 6 3 23 = 8 :=
  ⟨by decide,
   (srp_shared_key_agreement 5 4 6 15 3 23 (by decide)).1.trans (by decide),
   (srp_shared_key_agreement 5 4 6 15 3 23 (by decide)).2.1.trans (by decide),
   (srp_shared_key_agreement 5 4 6 15 3 23 (by decide)).2.2.1.trans (by decide),
   (srp_shared_key_agreement 5 4 6 15 3 23 (by decide)).2.2.2.1.trans (by decide)⟩

/-- C20: when both hash handles can be created (and the digest of
GNUTLS_MAC_SHA has 20 bytes), `_gnutls_calc_srp_sha` returns 0, sets the size to
20 and writes the digest SHA1(salt ++ SHA1(username ++ ":" ++ password)), the
inner digest entering with its 20 bytes; `_gnutls_calc_srp_x` with
SRPSHA1_CRYPT returns that same result; and with a crypt_algo that is neither
SRPSHA1_CRYPT nor BLOWFISH_CRYPT it returns -1 and leaves size and digest as
they were. -/
theorem calc_srp_x_sha (H : HashEnv) (username password salt : List Byte) (out : SrpOut)
    (hlen : ∀ m, (H.sha1 m).length = 20)
    (hinit0 : H.hash_init_ok 0 = true) (hinit1 : H.hash_init_ok 1 = true) :
    _gnutls_calc_srp_sha H username password salt out =
      (0, { size := 20,
            digest := H.sha1 (salt ++ H.sha1 (username ++ [58] ++ password)) }) ∧
    (H.sha1 (username ++ [58] ++ password)).length = 20 ∧
    _gnutls_calc_srp_x H username password salt H.SRPSHA1_CRYPT out =
      _gnutls_calc_srp_sha H username password salt out ∧
    ∀ crypt_algo : Nat, crypt_algo ≠ H.SRPSHA1_CRYPT → crypt_algo ≠ H.BLOWFISH_CRYPT →
      _gnutls_calc_srp_x H username password salt crypt_algo out = (-1, out) := by
  refine ⟨?_, hlen _, ?_, ?_⟩
  · have htake : ∀ m, (H.sha1 m).take 20 = H.sha1 m :=
      fun m => List.take_of_length_le (le_of_eq (hlen m))
    simp only [_gnutls_calc_srp_sha, hinit0, hinit1, gnutls_hash, gnutls_hash_deinit,
      List.nil_append]
    simp [htake]
  · simp [_gnutls_calc_srp_x]
  · intro crypt_algo h1 h2
    simp [_gnutls_calc_srp_x, h1, h2]

theorem calc_srp_x_sha_witness :
    _gnutls_calc_srp_sha sampleHashEnv [117] [112, 119] [1, 2] { size := 0, digest := [] } =
      (0, { size := 20,
            digest := sampleHashEnv.sha1
              ([1, 2] ++ sampleHashEnv.sha1 ([117] ++ [58] ++ [112, 119])) }) ∧
    (sampleHashEnv.sha1 ([117] ++ [58] ++ [112, 119])).length = 20 ∧
    _gnutls_calc_srp_x sampleHashEnv [117] [112, 119] [1, 2] sampleHashEnv.SRPSHA1_CRYPT
        { size := 0, digest := [] } =
      _gnutls_calc_srp_sha sampleHashEnv [117] [112, 119] [1, 2] { size := 0, digest := [] } ∧
    ∀ crypt_algo : Nat, crypt_algo ≠ sampleHashEnv.SRPSHA1_CRYPT →
      crypt_algo ≠ sampleHashEnv.BLOWFISH_CRYPT →
      _gnutls_calc_srp_x sampleHashEnv [117] [112, 119] [1, 2] crypt_algo
        { size := 0, digest := [] } = (-1, { size := 0, digest := [] }) :=
  calc_srp_x_sha sampleHashEnv [117] [112, 119] [1, 2] { size := 0, digest := [] }
    (fun m => List.length_replicate 20 (byteOfNat m.length)) rfl rfl

/-! ## The receive path: order of the checks -/

/-- After the algorithm id has resolved to `se`, the session of the state
afterwards is the input session with `se->id` recorded as the server's
signature algorithm, whatever happens later in the function. -/
theorem recv_session_after_resolution (K : Consts) (E : Env) (st : State)
    (cred : gnutls_certificate_credentials_st) (info : cert_auth_info_t)
    (d0 d1 : Byte) (rest : List Byte) (se : gnutls_sign_entry_st)
    (hflag : st.session.hsk_flags &&& K.HSK_CRT_VRFY_EXPECTED ≠ 0)
    (hcred : st.session.cred = some cred) (hinfo : st.session.auth_info = some info)
    (hrecv : 0 ≤ (E._gnutls_recv_handshake st.session).1)
    (hbody : (E._gnutls_recv_handshake st.session).2 = d0 :: d1 :: rest)
    (hse : E._gnutls_tls_aid_to_sign_entry d0 d1 st.session.pversion = some se) :
    (_gnutls13_recv_certificate_verify K E st).2.session =
      gnutls_sign_algorithm_set_server st.session se.id := by
  have hr : ¬ (E._gnutls_recv_handshake st.session).1 < 0 := not_lt.mpr hrecv
  simp only [_gnutls13_recv_certificate_verify, hflag, hcred, hinfo, hr, hbody, hse]
  simp only [if_false, ite_false]
  repeat' split
  all_goals simp [State.log]

/-- The receive function on a body whose signature field is fully present and
not empty, once the peer certificate is extracted: verification is called, a
negative code of it is returned as it is, and only otherwise are the bytes
after the signature looked at. -/
theorem recv_signature_present (K : Consts) (E : Env) (st : State)
    (cred : gnutls_certificate_credentials_st) (info : cert_auth_info_t)
    (d0 d1 hi lo : Byte) (sig trailing : List Byte) (se : gnutls_sign_entry_st)
    (hflag : st.session.hsk_flags &&& K.HSK_CRT_VRFY_EXPECTED ≠ 0)
    (hcred : st.session.cred = some cred) (hinfo : st.session.auth_info = some info)
    (hrecv : 0 ≤ (E._gnutls_recv_handshake st.session).1)
    (hbody : (E._gnutls_recv_handshake st.session).2 =
      d0 :: d1 :: hi :: lo :: (sig ++ trailing))
    (hse : E._gnutls_tls_aid_to_sign_entry d0 d1 st.session.pversion = some se)
    (hlen : hi.val * 256 + lo.val = sig.length)
    (hsig : sig ≠ [])
    (hcert : 0 ≤ (E._gnutls_get_auth_info_pcert st.session.cert_type info).1) :
    _gnutls13_recv_certificate_verify K E st =
      ((if E._gnutls13_handshake_verify_data
            (gnutls_sign_algorithm_set_server st.session se.id)
            (cred.verify_flags ||| st.session.additional_verify_flags)
            (E._gnutls_get_auth_info_pcert st.session.cert_type info).2 srv_ctx sig se < 0
        then E._gnutls13_handshake_verify_data
            (gnutls_sign_algorithm_set_server st.session se.id)
            (cred.verify_flags ||| st.session.additional_verify_flags)
            (E._gnutls_get_auth_info_pcert st.session.cert_type info).2 srv_ctx sig se
        else if trailing ≠ [] then K.GNUTLS_E_UNEXPECTED_PACKET_LENGTH else 0),
        { session := gnutls_sign_algorithm_set_server st.session se.id,
          calls := st.calls ++ [Call.recv_handshake,
            Call.tls_aid_to_sign_entry d0 d1 st.session.pversion,
            Call.get_auth_info_pcert st.session.cert_type info,
            Call.handshake_verify_data
              (cred.verify_flags ||| st.session.additional_verify_flags)
              (E._gnutls_get_auth_info_pcert st.session.cert_type info).2 srv_ctx sig se] }) := by
  have hr : ¬ (E._gnutls_recv_handshake st.session).1 < 0 := not_lt.mpr hrecv
  have hc : ¬ (E._gnutls_get_auth_info_pcert st.session.cert_type info).1 < 0 :=
    not_lt.mpr hcert
  have hp := pop_datum_prefix16_append K hi lo sig trailing hlen
  by_cases hv : E._gnutls13_handshake_verify_data
      (gnutls_sign_algorithm_set_server st.session se.id)
      (cred.verify_flags ||| st.session.additional_verify_flags)
      (E._gnutls_get_auth_info_pcert st.session.cert_type info).2 srv_ctx sig se < 0
  · simp [_gnutls13_recv_certificate_verify, hflag, hcred, hinfo, hr, hbody, hse, State.log,
      hp, hsig, hc, hv, set_server_fields]
  · by_cases ht : trailing = []
    · subst ht
      rw [List.append_nil] at hp hbody
      simp [_gnutls13_recv_certificate_verify, hflag, hcred, hinfo, hr, hbody, hse, State.log,
        hp, hsig, hc, hv, set_server_fields]
    · simp [_gnutls13_recv_certificate_verify, hflag, hcred, hinfo, hr, hbody, hse, State.log,
        hp, hsig, hc, hv, ht, set_server_fields, List.length_pos]

/-- C24: on the receive path, once the algorithm id has resolved to `se`, the
state afterwards has `se->id` recorded as the server's signature algorithm,
whatever the outcome; and for a body with a non-empty, fully present signature
and an extracted peer certificate, a negative code `e` of the verification
primitive is returned as it is, with or without trailing bytes, while
GNUTLS_E_UNEXPECTED_PACKET_LENGTH for trailing bytes is returned when the
verification primitive did not fail. -/
theorem recv_verification_precedes_framing (K : Consts) (E : Env) (st : State)
    (cred : gnutls_certificate_credentials_st) (info : cert_auth_info_t)
    (d0 d1 : Byte) (rest : List Byte) (se : gnutls_sign_entry_st)
    (hflag : st.session.hsk_flags &&& K.HSK_CRT_VRFY_EXPECTED ≠ 0)
    (hcred : st.session.cred = some cred) (hinfo : st.session.auth_info = some info)
    (hrecv : 0 ≤ (E._gnutls_recv_handshake st.session).1)
    (hbody : (E._gnutls_recv_handshake st.session).2 = d0 :: d1 :: rest)
    (hse : E._gnutls_tls_aid_to_sign_entry d0 d1 st.session.pversion = some se) :
    (_gnutls13_recv_certificate_verify K E st).2.session.server_sign_algo = se.id ∧
    ∀ (hi lo : Byte) (sig trailing : List Byte) (e : Int),
      rest = hi :: lo :: (sig ++ trailing) →
      hi.val * 256 + lo.val = sig.length → sig ≠ [] →
      0 ≤ (E._gnutls_get_auth_info_pcert st.session.cert_type info).1 →
      E._gnutls13_handshake_verify_data
        (gnutls_sign_algorithm_set_server st.session se.id)
        (cred.verify_flags ||| st.session.additional_verify_flags)
        (E._gnutls_get_auth_info_pcert st.session.cert_type info).2 srv_ctx sig se = e →
      (e < 0 → (_gnutls13_recv_certificate_verify K E st).1 = e) ∧
      (0 ≤ e → trailing ≠ [] →
        (_gnutls13_recv_certificate_verify K E st).1 = K.GNUTLS_E_UNEXPECTED_PACKET_LENGTH) := by
  constructor
  · rw [recv_session_after_resolution K E st cred info d0 d1 rest se hflag hcred hinfo hrecv
      hbody hse]
    rfl
  · intro hi lo sig trailing e hrest hlen hsig hcert he
    rw [hrest] at hbody
    have h := recv_signature_present K E st cred info d0 d1 hi lo sig trailing se hflag hcred
      hinfo hrecv hbody hse hlen hsig hcert
    rw [he] at h
    constructor
    · intro hneg
      rw [h]
      simp [hneg]
    · intro hpos htrail
      rw [h]
      simp [not_lt.mpr hpos, htrail]

theorem recv_verification_precedes_framing_witness :
    (_gnutls13_recv_certificate_verify sampleConsts (sampleEnv [8, 4, 0, 3, 1, 2, 4, 9] [])
        (sampleState 1 Entity.GNUTLS_CLIENT)).2.session.server_sign_algo = sampleEntry.id ∧
    (_gnutls13_recv_certificate_verify sampleConsts (sampleEnv [8, 4, 0, 3, 1, 2, 4, 9] [])
        (sampleState 1 Entity.GNUTLS_CLIENT)).1 = -43 :=
  ⟨(recv_verification_precedes_framing sampleConsts (sampleEnv [8, 4, 0, 3, 1, 2, 4, 9] [])
      (sampleState 1 Entity.GNUTLS_CLIENT) { verify_flags := 8 } 7 8 4 [0, 3, 1, 2, 4, 9]
      sampleEntry (by decide) rfl rfl (by decide) rfl (by decide)).1,
   ((recv_verification_precedes_framing sampleConsts (sampleEnv [8, 4, 0, 3, 1, 2, 4, 9] [])
      (sampleState 1 Entity.GNUTLS_CLIENT) { verify_flags := 8 } 7 8 4 [0, 3, 1, 2, 4, 9]
      sampleEntry (by decide) rfl rfl (by decide) rfl (by decide)).2 0 3 [1, 2, 4] [9] (-43)
      rfl (by decide) (by decide) (by decide) (by decide)).1 (by decide)⟩

/-! ## OpenPGP private keys: theorems -/

/-- The counting walk adds the number of secret subkey packets to its counter. -/
theorem subkey_count_walk_eq (K : PgpConsts) (l : List cdk_packet_t) (c : Nat) :
    subkey_count_walk K l c =
      c + (l.filter (fun pkt => pkt.pkttype = K.CDK_PKT_SECRET_SUBKEY)).length := by
  induction l generalizing c with
  | nil => simp [subkey_count_walk]
  | cons pkt rest ih =>
    by_cases h : pkt.pkttype = K.CDK_PKT_SECRET_SUBKEY
    · simp [subkey_count_walk, h, ih]
      omega
    · simp [subkey_count_walk, h, ih]

/-- The indexing walk with counter c returns the secret subkey packet number
idx - c of the remaining packets. -/
theorem secret_subkey_walk_eq (K : PgpConsts) (idx : Nat) (l : List cdk_packet_t) (c : Nat)
    (hc : c ≤ idx) :
    secret_subkey_walk K idx l c =
      (l.filter (fun pkt => pkt.pkttype = K.CDK_PKT_SECRET_SUBKEY))[idx - c]? := by
  induction l generalizing c with
  | nil => simp [secret_subkey_walk]
  | cons pkt rest ih =>
    by_cases h : pkt.pkttype = K.CDK_PKT_SECRET_SUBKEY
    · by_cases hi : idx = c
      · simp [secret_subkey_walk, h, hi]
      · have hc2 : c + 1 ≤ idx := by omega
        have hsub : idx - c = (idx - (c + 1)) + 1 := by omega
        simp [secret_subkey_walk, h, hi, ih (c + 1) hc2, hsub]
    · simp [secret_subkey_walk, h, ih c hc]

/-- C22: for a non-null key, `gnutls_openpgp_privkey_get_subkey_count` returns
the number n of packets of type CDK_PKT_SECRET_SUBKEY of the keyblock;
`_get_secret_subkey (key, idx)` is the idx-th such packet in keyblock order,
counting from 0, and NULL when idx is at least n; and, the error constant
being negative and the key id buffer not NULL, both
`gnutls_openpgp_privkey_get_subkey_id` and
`gnutls_openpgp_privkey_get_subkey_revoked_status` return
GNUTLS_E_OPENPGP_GETKEY_FAILED exactly when idx is at least n. -/
theorem subkey_index_agrees_with_count (K : PgpConsts) (E : PgpEnv)
    (key : gnutls_openpgp_privkey_int) (idx : Nat) (buf : List Byte)
    (hneg : K.GNUTLS_E_OPENPGP_GETKEY_FAILED < 0) :
    gnutls_openpgp_privkey_get_subkey_count K (some key) = (secret_subkeys K key).length ∧
    _get_secret_subkey K key idx = (secret_subkeys K key)[idx]? ∧
    (idx < (secret_subkeys K key).length →
      ∃ pkt, _get_secret_subkey K key idx = some pkt ∧
        pkt.pkttype = K.CDK_PKT_SECRET_SUBKEY) ∧
    ((secret_subkeys K key).length ≤ idx → _get_secret_subkey K key idx = none) ∧
    ((gnutls_openpgp_privkey_get_subkey_id K E (some key) idx (some buf)).1 =
        K.GNUTLS_E_OPENPGP_GETKEY_FAILED ↔ (secret_subkeys K key).length ≤ idx) ∧
    (gnutls_openpgp_privkey_get_subkey_revoked_status K (some key) idx =
        K.GNUTLS_E_OPENPGP_GETKEY_FAILED ↔ (secret_subkeys K key).length ≤ idx) := by
  have hget : _get_secret_subkey K key idx = (secret_subkeys K key)[idx]? := by
    simpa [_get_secret_subkey, secret_subkeys] using
      secret_subkey_walk_eq K idx key.knode 0 (Nat.zero_le idx)
  have hnone : (secret_subkeys K key).length ≤ idx → _get_secret_subkey K key idx = none := by
    intro h
    rw [hget]
    exact List.getElem?_eq_none h
  have hsome : idx < (secret_subkeys K key).length →
      ∃ pkt, _get_secret_subkey K key idx = some pkt ∧
        pkt.pkttype = K.CDK_PKT_SECRET_SUBKEY := by
    intro h
    refine ⟨(secret_subkeys K key)[idx], by rw [hget, List.getElem?_eq_getElem h], ?_⟩
    have hmem : (secret_subkeys K key)[idx] ∈ secret_subkeys K key := List.getElem_mem h
    simp only [secret_subkeys, List.mem_filter, decide_eq_true_eq] at hmem
    exact hmem.2
  refine ⟨?_, hget, hsome, hnone, ?_, ?_⟩
  · simp [gnutls_openpgp_privkey_get_subkey_count, subkey_count_walk_eq, secret_subkeys]
  · constructor
    · intro h
      by_contra hlt
      obtain ⟨pkt, hp, -⟩ := hsome (not_le.mp hlt)
      simp [gnutls_openpgp_privkey_get_subkey_id, hp] at h
      omega
    · intro h
      simp [gnutls_openpgp_privkey_get_subkey_id, hnone h]
  · constructor
    · intro h
      by_contra hlt
      obtain ⟨pkt, hp, -⟩ := hsome (not_le.mp hlt)
      simp only [gnutls_openpgp_privkey_get_subkey_revoked_status, hp] at h
      split at h <;> omega
    · intro h
      simp [gnutls_openpgp_privkey_get_subkey_revoked_status, hnone h]

theorem subkey_index_agrees_with_count_witness :
    (samplePgpConsts 8).GNUTLS_E_OPENPGP_GETKEY_FAILED < 0 ∧
    gnutls_openpgp_privkey_get_subkey_count (samplePgpConsts 8) (some samplePrivkey) = 2 ∧
    _get_secret_subkey (samplePgpConsts 8) samplePrivkey 1 = some (samplePacket 7 17 4 4) ∧
    _get_secret_subkey (samplePgpConsts 8) samplePrivkey 2 = none :=
  ⟨by decide,
   (subkey_index_agrees_with_count (samplePgpConsts 8) samplePgpEnv samplePrivkey 1
      [0, 0, 0, 0, 0, 0, 0, 0] (by decide)).1.trans (by decide),
   (subkey_index_agrees_with_count (samplePgpConsts 8) samplePgpEnv samplePrivkey 1
      [0, 0, 0, 0, 0, 0, 0, 0] (by decide)).2.1.trans (by decide),
   (subkey_index_agrees_with_count (samplePgpConsts 8) samplePgpEnv samplePrivkey 2
      [0, 0, 0, 0, 0, 0, 0, 0] (by decide)).2.2.2.1 (by decide)⟩

/-- C23: with `fpr` and `fprlen` not NULL, when the keyblock has a secret key
packet (the first one is the primary key) the function returns 0 and sets
`*fprlen` to 16 if the key's public-key algorithm is RSA and its version is
below 4, and to 20 otherwise; when the keyblock has no secret key packet it
returns GNUTLS_E_OPENPGP_GETKEY_FAILED with `*fprlen` set to 0; and when `fpr`
or `fprlen` is NULL it returns GNUTLS_E_INVALID_REQUEST, leaving both as they
were. -/
theorem fingerprint_length (K : PgpConsts) (E : PgpEnv) (key : gnutls_openpgp_privkey_int)
    (buf : List Byte) (len0 : Nat) :
    (∀ pkt, cdk_kbnode_find_packet key.knode K.CDK_PKT_SECRET_KEY = some pkt →
      (gnutls_openpgp_privkey_get_fingerprint K E key (some buf) (some len0)).1 = 0 ∧
      ((gnutls_openpgp_privkey_get_fingerprint K E key (some buf) (some len0)).2.2 = some 16 ∨
       (gnutls_openpgp_privkey_get_fingerprint K E key (some buf) (some len0)).2.2 = some 20) ∧
      ((gnutls_openpgp_privkey_get_fingerprint K E key (some buf) (some len0)).2.2 = some 16 ↔
        (E.is_RSA pkt.secret_key.pk.pubkey_algo = true ∧ pkt.secret_key.pk.version < 4)) ∧
      ((gnutls_openpgp_privkey_get_fingerprint K E key (some buf) (some len0)).2.2 = some 20 ↔
        ¬ (E.is_RSA pkt.secret_key.pk.pubkey_algo = true ∧ pkt.secret_key.pk.version < 4))) ∧
    (cdk_kbnode_find_packet key.knode K.CDK_PKT_SECRET_KEY = none →
      gnutls_openpgp_privkey_get_fingerprint K E key (some buf) (some len0) =
        (K.GNUTLS_E_OPENPGP_GETKEY_FAILED, some buf, some 0)) ∧
    (∀ (fpr : Option (List Byte)) (fprlen : Option Nat), fpr = none ∨ fprlen = none →
      gnutls_openpgp_privkey_get_fingerprint K E key fpr fprlen =
        (K.GNUTLS_E_INVALID_REQUEST, fpr, fprlen)) := by
  refine ⟨?_, ?_, ?_⟩
  · intro pkt hfind
    by_cases h : E.is_RSA pkt.secret_key.pk.pubkey_algo = true ∧ pkt.secret_key.pk.version < 4
    · simp [gnutls_openpgp_privkey_get_fingerprint, hfind, h]
    · simp [gnutls_openpgp_privkey_get_fingerprint, hfind, h]
  · intro hfind
    simp [gnutls_openpgp_privkey_get_fingerprint, hfind]
  · intro fpr fprlen h
    rcases h with h | h
    · subst h
      simp [gnutls_openpgp_privkey_get_fingerprint]
    · subst h
      cases fpr <;> simp [gnutls_openpgp_privkey_get_fingerprint]

theorem fingerprint_length_witness :
    (gnutls_openpgp_privkey_get_fingerprint (samplePgpConsts 8) samplePgpEnv samplePrivkey
      (some [0, 0, 0, 0]) (some 99)).1 = 0 ∧
    (gnutls_openpgp_privkey_get_fingerprint (samplePgpConsts 8) samplePgpEnv samplePrivkey
      (some [0, 0, 0, 0]) (some 99)).2.2 = some 16 :=
  ⟨((fingerprint_length (samplePgpConsts 8) samplePgpEnv samplePrivkey [0, 0, 0, 0] 99).1
      (samplePacket 5 1 3 1) (by decide)).1,
   ((fingerprint_length (samplePgpConsts 8) samplePgpEnv samplePrivkey [0, 0, 0, 0] 99).1
      (samplePacket 5 1 3 1) (by decide)).2.2.1.mpr (by decide)⟩

/-- The parts of the preferred key id round trip that hold for every pointer
size: with `preferred_set` zero the getter returns GNUTLS_E_INVALID_REQUEST and
leaves the buffer as it is, and a setter call whose lookup fails returns the
lookup's negative code and leaves the key as it is. With 8-byte pointers and
8-byte buffers a successful set followed by a get yields the key id. -/
theorem preferred_key_id_round_trip_when_pointer_is_8 (K : PgpConsts) (E : PgpEnv)
    (key : gnutls_openpgp_privkey_int) (keyid buf : List Byte) :
    (key.preferred_set = 0 →
      gnutls_openpgp_privkey_get_preferred_key_id K (some key) (some buf) =
        (K.GNUTLS_E_INVALID_REQUEST, some buf)) ∧
    (gnutls_openpgp_privkey_get_subkey_idx K E (some key) keyid < 0 →
      gnutls_openpgp_privkey_set_preferred_key_id K E (some key) keyid =
        (gnutls_openpgp_privkey_get_subkey_idx K E (some key) keyid, some key)) ∧
    (0 ≤ gnutls_openpgp_privkey_get_subkey_idx K E (some key) keyid →
      K.sizeof_keyid = 8 → keyid.length = 8 → buf.length = 8 →
      key.preferred_keyid.length = 8 →
      (gnutls_openpgp_privkey_set_preferred_key_id K E (some key) keyid).1 = 0 ∧
      gnutls_openpgp_privkey_get_preferred_key_id K
        (gnutls_openpgp_privkey_set_preferred_key_id K E (some key) keyid).2 (some buf) =
        (0, some keyid)) := by
  refine ⟨?_, ?_, ?_⟩
  · intro h
    simp [gnutls_openpgp_privkey_get_preferred_key_id, h]
  · intro h
    simp [gnutls_openpgp_privkey_set_preferred_key_id, h]
  · intro h h8 hk hb hp
    have hnot : ¬ gnutls_openpgp_privkey_get_subkey_idx K E (some key) keyid < 0 :=
      not_lt.mpr h
    simp [gnutls_openpgp_privkey_set_preferred_key_id, hnot,
      gnutls_openpgp_privkey_get_preferred_key_id, memcpy, h8,
      List.take_of_length_le (le_of_eq hk), List.drop_of_length_le (le_of_eq hb),
      List.drop_of_length_le (le_of_eq hp)]

/-- C21 fails on the code where a pointer has 4 bytes (`sizeof(keyid)` is 4):
for the key id 01 02 03 04 05 06 07 08, which the lookup finds, the setter
returns 0 but stores 01 02 03 04 00 00 00 00, and the getter that follows
returns 0 and yields 01 02 03 04 followed by the last four bytes the caller's
buffer already held. Where a pointer has 8 bytes the same calls yield the
eight bytes of the key id. -/
theorem preferred_key_id_loses_bytes_with_4_byte_pointers :
    gnutls_openpgp_privkey_get_subkey_idx (samplePgpConsts 4) samplePgpEnv
      (some samplePrivkey) [1, 2, 3, 4, 5, 6, 7, 8] = 0 ∧
    gnutls_openpgp_privkey_set_preferred_key_id (samplePgpConsts 4) samplePgpEnv
      (some samplePrivkey) [1, 2, 3, 4, 5, 6, 7, 8] =
      (0, some { samplePrivkey with preferred_set := 1,
                                    preferred_keyid := [1, 2, 3, 4, 0, 0, 0, 0] }) ∧
    gnutls_openpgp_privkey_get_preferred_key_id (samplePgpConsts 4)
      (gnutls_openpgp_privkey_set_preferred_key_id (samplePgpConsts 4) samplePgpEnv
        (some samplePrivkey) [1, 2, 3, 4, 5, 6, 7, 8]).2
      (some [170, 170, 170, 170, 170, 170, 170, 170]) =
      (0, some [1, 2, 3, 4, 170, 170, 170, 170]) ∧
    gnutls_openpgp_privkey_get_preferred_key_id (samplePgpConsts 8)
      (gnutls_openpgp_privkey_set_preferred_key_id (samplePgpConsts 8) samplePgpEnv
        (some samplePrivkey) [1, 2, 3, 4, 5, 6, 7, 8]).2
      (some [170, 170, 170, 170, 170, 170, 170, 170]) =
      (0, some [1, 2, 3, 4, 5, 6, 7, 8]) := by
  decide

end GnuTLS
